import Mathlib

/-!
Verification of the pyit600 Salus iT600 gateway client.

This file shallowly embeds the parts of `pyit600` that the checked
properties are about: the JSON-ish raw device records the gateway
returns, the per-kind device decoding of `gateway.py`, the registry
refresh logic of `poll_status`, the encrypted transport wrapper
`_make_encrypted_request`, the cipher of `encryptor.py`, and the write
commands (`set_cover_position`, `set_climate_device_temperature`).

Python values that the code manipulates untyped (dicts, lists, strings,
ints) are modelled by the inductive `JVal`; Python-level failures
(KeyError, TypeError, ValueError, json decode errors, and the library's
own `IT600*Error` classes, all of which subclass `Exception`) are
modelled by `PyExc` and `Except`.
-/

namespace PyIt600

/-- Python exception values raised by the modelled code. Every
constructor models a subclass of Python's `Exception` (`BaseException`
specials such as `KeyboardInterrupt` are outside the model): in
particular the `IT600*Error` classes of `exceptions.py` all derive from
`IT600Error(Exception)`. -/
inductive PyExc where
  | keyError
  | typeError
  | valueError (msg : String)
  | jsonDecodeError
  | timeoutError
  | clientConnectorError
  | otherExc
  | it600CommandError (msg : String)
  | it600ConnectionError (msg : String)
  | it600AuthenticationError (msg : String)
deriving DecidableEq

/-- JSON-like values: raw device records and the request/response bodies
exchanged with the gateway (Python dict / list / str / int / bool /
None). -/
inductive JVal where
  | jnull
  | jbool (b : Bool)
  | jint (n : Int)
  | jstr (s : String)
  | jobj (fields : List (String × JVal))
  | jarr (items : List JVal)

mutual

/-- Structural boolean equality of JSON-like values (Python `==`). -/
def JVal.beq : JVal → JVal → Bool
  | .jnull, .jnull => true
  | .jbool a, .jbool b => a == b
  | .jint a, .jint b => a == b
  | .jstr a, .jstr b => a == b
  | .jobj a, .jobj b => JVal.beqFields a b
  | .jarr a, .jarr b => JVal.beqItems a b
  | _, _ => false

/-- Boolean equality of object field lists. -/
def JVal.beqFields : List (String × JVal) → List (String × JVal) → Bool
  | [], [] => true
  | (k1, v1) :: r1, (k2, v2) :: r2 => k1 == k2 && JVal.beq v1 v2 && JVal.beqFields r1 r2
  | _, _ => false

/-- Boolean equality of array item lists. -/
def JVal.beqItems : List JVal → List JVal → Bool
  | [], [] => true
  | v1 :: r1, v2 :: r2 => JVal.beq v1 v2 && JVal.beqItems r1 r2
  | _, _ => false

end

/-- Key lookup in a JSON object; `none` for missing keys or non-objects. -/
def JVal.lookup : JVal → String → Option JVal
  | .jobj fs, k => fs.lookup k
  | _, _ => none

/-- Python subscript `v[k]`: `KeyError` when the key is missing,
`TypeError` when `v` is not a dict. -/
def JVal.item (v : JVal) (k : String) : Except PyExc JVal :=
  match v with
  | .jobj fs =>
    match fs.lookup k with
    | some x => .ok x
    | none => .error .keyError
  | _ => .error .typeError

/-- Python `v.get(k, dflt)`: the stored value when the key is present,
the default otherwise; an attribute error (`TypeError` in the model)
when `v` is not a dict. -/
def JVal.getD (v : JVal) (k : String) (dflt : JVal) : Except PyExc JVal :=
  match v with
  | .jobj fs => .ok ((fs.lookup k).getD dflt)
  | _ => .error .typeError

/-- Substring test (Python `needle in hay` on strings). -/
def strContains (hay needle : String) : Bool :=
  (List.range (hay.length + 1)).any fun i => needle.data.isPrefixOf (hay.data.drop i)

/-- Python `k in v` for the shapes the gateway code filters on: key test
for dicts, substring test for strings, membership for lists; `TypeError`
for ints / None. -/
def pyContains (k : String) (v : JVal) : Except PyExc Bool :=
  match v with
  | .jobj fs => .ok (fs.lookup k).isSome
  | .jstr s => .ok (strContains s k)
  | .jarr xs => .ok (xs.any (fun x => JVal.beq x (.jstr k)))
  | _ => .error .typeError

/-- Python `==` between a raw attribute value and an int literal
(Python bools equal their numeric value; other types compare unequal
without error). -/
def JVal.eqInt (v : JVal) (n : Int) : Bool :=
  match v with
  | .jint m => m = n
  | .jbool b => (if b then (1 : Int) else 0) = n
  | _ => false

/-- Python `==` between a raw attribute value and a string literal. -/
def JVal.eqStr (v : JVal) (s : String) : Bool :=
  match v with
  | .jstr t => t = s
  | _ => false

/-- Python `v < n` between a raw attribute value and an int
(`TypeError` for non-numbers, e.g. `None < 3`). -/
def JVal.ltInt (v : JVal) (n : Int) : Except PyExc Bool :=
  match v with
  | .jint m => .ok (decide (m < n))
  | .jbool b => .ok (decide ((if b then (1 : Int) else 0) < n))
  | _ => .error .typeError

/-- Python `v > n` between a raw attribute value and an int. -/
def JVal.gtInt (v : JVal) (n : Int) : Except PyExc Bool :=
  match v with
  | .jint m => .ok (decide (m > n))
  | .jbool b => .ok (decide ((if b then (1 : Int) else 0) > n))
  | _ => .error .typeError

/-- Numeric view of a raw attribute value, for arithmetic such as `% 2`
or `/ 100` (`TypeError` for non-numbers). -/
def JVal.asInt : JVal → Except PyExc Int
  | .jint n => .ok n
  | .jbool b => .ok (if b then 1 else 0)
  | _ => .error .typeError

/-- Single-quote character, used by Python `repr` of strings. -/
def sq : String := String.singleton (Char.ofNat 39)

mutual

/-- Python `repr` of a JSON-like value (dict/list/str/int/bool/None),
as interpolated into the gateway's command-rejection error message. -/
def pyRepr : JVal → String
  | .jnull => "None"
  | .jbool b => if b then "True" else "False"
  | .jint n => toString n
  | .jstr s => sq ++ s ++ sq
  | .jobj fs => "\x7b" ++ pyReprFields fs ++ "\x7d"
  | .jarr xs => "[" ++ pyReprItems xs ++ "]"

/-- Comma-separated `repr` of dict entries. -/
def pyReprFields : List (String × JVal) → String
  | [] => ""
  | [(k, v)] => sq ++ k ++ sq ++ ": " ++ pyRepr v
  | (k, v) :: rest => sq ++ k ++ sq ++ ": " ++ pyRepr v ++ ", " ++ pyReprFields rest

/-- Comma-separated `repr` of list items. -/
def pyReprItems : List JVal → String
  | [] => ""
  | [v] => pyRepr v
  | v :: rest => pyRepr v ++ ", " ++ pyReprItems rest

end

/-- Python `str(x)` for the value shapes that reach it in the modelled
code (the endpoint number interpolated into a switch unique id). -/
def pyStr (v : JVal) : String :=
  match v with
  | .jstr s => s
  | v => pyRepr v

/-- JSON string escaping for `json.dumps` (quote and backslash; the
strings the modelled code serializes need no other escapes). -/
def jsonEscapeChar (c : Char) : String :=
  if c = '"' ∨ c = '\\' then "\\" ++ String.singleton c else String.singleton c

/-- Escape a whole string for `json.dumps`. -/
def jsonEscape (s : String) : String := String.join (s.data.map jsonEscapeChar)

mutual

/-- Python `json.dumps` of a JSON-like value. -/
def jsonDumps : JVal → String
  | .jnull => "null"
  | .jbool b => if b then "true" else "false"
  | .jint n => toString n
  | .jstr s => "\"" ++ jsonEscape s ++ "\""
  | .jobj fs => "\x7b" ++ jsonDumpsFields fs ++ "\x7d"
  | .jarr xs => "[" ++ jsonDumpsItems xs ++ "]"

/-- Comma-separated `json.dumps` of dict entries. -/
def jsonDumpsFields : List (String × JVal) → String
  | [] => ""
  | [(k, v)] => "\"" ++ jsonEscape k ++ "\": " ++ jsonDumps v
  | (k, v) :: rest => "\"" ++ jsonEscape k ++ "\": " ++ jsonDumps v ++ ", " ++ jsonDumpsFields rest

/-- Comma-separated `json.dumps` of list items. -/
def jsonDumpsItems : List JVal → String
  | [] => ""
  | [v] => jsonDumps v
  | v :: rest => jsonDumps v ++ ", " ++ jsonDumpsItems rest

end

/-- Opening-brace character. -/
def lbrace : Char := Char.ofNat 123

/-- Closing-brace character. -/
def rbrace : Char := Char.ofNat 125

/-- Skip JSON whitespace. -/
def skipWs : List Char → List Char
  | c :: cs =>
    if c = ' ' ∨ c = Char.ofNat 10 ∨ c = Char.ofNat 9 ∨ c = Char.ofNat 13 then skipWs cs
    else c :: cs
  | [] => []

/-- Parse the remainder of a JSON string literal (after the opening
quote), handling backslash escapes. -/
def jsonStrChars : Nat → List Char → Except PyExc (String × List Char)
  | 0, _ => .error .jsonDecodeError
  | _ + 1, [] => .error .jsonDecodeError
  | fuel + 1, c :: rest =>
    if c = '"' then .ok ("", rest)
    else if c = '\\' then
      match rest with
      | [] => .error .jsonDecodeError
      | e :: rest2 => do
        let (s, r) ← jsonStrChars fuel rest2
        .ok (String.singleton (if e = 'n' then Char.ofNat 10 else e) ++ s, r)
    else do
      let (s, r) ← jsonStrChars fuel rest
      .ok (String.singleton c ++ s, r)

/-- Parse a run of decimal digits, accumulating into an integer. -/
def jsonDigits : Nat → List Char → Int → Int × List Char
  | 0, cs, acc => (acc, cs)
  | _ + 1, [], acc => (acc, [])
  | fuel + 1, c :: cs, acc =>
    if c.isDigit then jsonDigits fuel cs (acc * 10 + ((c.toNat - 48 : Nat) : Int))
    else (acc, c :: cs)

mutual

/-- Parse one JSON value (fuel-indexed recursive descent). -/
def jsonVal : Nat → List Char → Except PyExc (JVal × List Char)
  | 0, _ => .error .jsonDecodeError
  | fuel + 1, cs =>
    match skipWs cs with
    | [] => .error .jsonDecodeError
    | c :: rest =>
      if c = '"' then do
        let (s, r) ← jsonStrChars (fuel + 1) rest
        .ok (.jstr s, r)
      else if c = lbrace then jsonObjRest fuel rest []
      else if c = '[' then jsonArrRest fuel rest []
      else if c = '-' then
        match rest with
        | d :: _ =>
          if d.isDigit then
            let (n, r) := jsonDigits (fuel + 1) rest 0
            .ok (.jint (-n), r)
          else .error .jsonDecodeError
        | [] => .error .jsonDecodeError
      else if c.isDigit then
        let (n, r) := jsonDigits (fuel + 1) (c :: rest) 0
        .ok (.jint n, r)
      else if "true".data.isPrefixOf (c :: rest) then .ok (.jbool true, (c :: rest).drop 4)
      else if "false".data.isPrefixOf (c :: rest) then .ok (.jbool false, (c :: rest).drop 5)
      else if "null".data.isPrefixOf (c :: rest) then .ok (.jnull, (c :: rest).drop 4)
      else .error .jsonDecodeError

/-- Parse the inside of a JSON object after the opening brace. -/
def jsonObjRest : Nat → List Char → List (String × JVal) → Except PyExc (JVal × List Char)
  | 0, _, _ => .error .jsonDecodeError
  | fuel + 1, cs, acc =>
    match skipWs cs with
    | [] => .error .jsonDecodeError
    | c :: rest =>
      if c = rbrace then
        if acc.isEmpty then .ok (.jobj [], rest) else .error .jsonDecodeError
      else if c = '"' then do
        let (k, r1) ← jsonStrChars (fuel + 1) rest
        match skipWs r1 with
        | c2 :: r2 =>
          if c2 = ':' then do
            let (v, r3) ← jsonVal fuel r2
            match skipWs r3 with
            | c3 :: r4 =>
              if c3 = ',' then jsonObjRest fuel r4 (acc ++ [(k, v)])
              else if c3 = rbrace then .ok (.jobj (acc ++ [(k, v)]), r4)
              else .error .jsonDecodeError
            | [] => .error .jsonDecodeError
          else .error .jsonDecodeError
        | [] => .error .jsonDecodeError
      else .error .jsonDecodeError

/-- Parse the inside of a JSON array after the opening bracket. -/
def jsonArrRest : Nat → List Char → List JVal → Except PyExc (JVal × List Char)
  | 0, _, _ => .error .jsonDecodeError
  | fuel + 1, cs, acc =>
    match skipWs cs with
    | [] => .error .jsonDecodeError
    | c :: rest =>
      if c = ']' then
        if acc.isEmpty then .ok (.jarr [], rest) else .error .jsonDecodeError
      else do
        let (v, r1) ← jsonVal fuel cs
        match skipWs r1 with
        | c2 :: r2 =>
          if c2 = ',' then jsonArrRest fuel r2 (acc ++ [v])
          else if c2 = ']' then .ok (.jarr (acc ++ [v]), r2)
          else .error .jsonDecodeError
        | [] => .error .jsonDecodeError

end

/-- Python `json.loads` on the JSON subset used by the gateway protocol
(objects, arrays, strings, integers, booleans, null); raises a decode
error on malformed input. -/
def jsonLoads (s : String) : Except PyExc JVal := do
  let (v, rest) ← jsonVal (2 * s.length + 2) s.data
  if skipWs rest = [] then .ok v else .error .jsonDecodeError

/-- Lookup in a Python dict keyed by raw values (association list in
insertion order). -/
def jlookup : List (JVal × α) → JVal → Option α
  | [], _ => none
  | (k2, v) :: rest, k => if JVal.beq k2 k then some v else jlookup rest k

/-- Python dict update `d[k] = v`: replace in place when the key exists,
else append (insertion order preserved). -/
def jdictSet (d : List (JVal × α)) (k : JVal) (v : α) : List (JVal × α) :=
  if (jlookup d k).isSome then d.map (fun p => if JVal.beq p.1 k then (k, v) else p)
  else d ++ [(k, v)]

/-- Python iteration over the value shapes a response field can take:
lists yield their items, strings yield 1-character strings, dicts yield
their keys; ints and None are not iterable. -/
def pyIter (v : JVal) : Except PyExc (List JVal) :=
  match v with
  | .jarr xs => .ok xs
  | .jstr s => .ok (s.data.map (fun c => .jstr (String.singleton c)))
  | .jobj fs => .ok (fs.map (fun p => .jstr p.1))
  | _ => .error .typeError

/-!
## Constants (`const.py`)
-/

/-- const.py temperature unit (the file stores the degree sign in a
double-encoded form; the exact bytes are irrelevant to the claims). -/
def TEMP_CELSIUS : String := "Â°C"

/-- const.py climate feature flag. -/
def SUPPORT_TARGET_TEMPERATURE : Int := 1

/-- const.py climate feature flag. -/
def SUPPORT_FAN_MODE : Int := 8

/-- const.py climate feature flag. -/
def SUPPORT_PRESET_MODE : Int := 16

/-- const.py cover feature flag. -/
def SUPPORT_OPEN : Int := 1

/-- const.py cover feature flag. -/
def SUPPORT_CLOSE : Int := 2

/-- const.py cover feature flag. -/
def SUPPORT_SET_POSITION : Int := 4

/-- const.py HVAC mode. -/
def HVAC_MODE_OFF : String := "off"

/-- const.py HVAC mode. -/
def HVAC_MODE_HEAT : String := "heat"

/-- const.py HVAC mode. -/
def HVAC_MODE_COOL : String := "cool"

/-- const.py HVAC mode. -/
def HVAC_MODE_AUTO : String := "auto"

/-- const.py HVAC state. -/
def CURRENT_HVAC_OFF : String := "off"

/-- const.py HVAC state. -/
def CURRENT_HVAC_HEAT : String := "heating"

/-- const.py HVAC state. -/
def CURRENT_HVAC_HEAT_IDLE : String := "heating (idling)"

/-- const.py HVAC state. -/
def CURRENT_HVAC_COOL : String := "cooling"

/-- const.py HVAC state. -/
def CURRENT_HVAC_COOL_IDLE : String := "cooling (idling)"

/-- const.py HVAC state. -/
def CURRENT_HVAC_IDLE : String := "idle"

/-- const.py preset. -/
def PRESET_FOLLOW_SCHEDULE : String := "Follow Schedule"

/-- const.py preset. -/
def PRESET_PERMANENT_HOLD : String := "Permanent Hold"

/-- const.py preset. -/
def PRESET_TEMPORARY_HOLD : String := "Temporary Hold"

/-- const.py preset. -/
def PRESET_ECO : String := "Eco"

/-- const.py preset. -/
def PRESET_OFF : String := "Off"

/-- const.py fan mode. -/
def FAN_MODE_AUTO : String := "Auto"

/-- const.py fan mode. -/
def FAN_MODE_HIGH : String := "High"

/-- const.py fan mode. -/
def FAN_MODE_MEDIUM : String := "Medium"

/-- const.py fan mode. -/
def FAN_MODE_LOW : String := "Low"

/-- const.py fan mode. -/
def FAN_MODE_OFF : String := "Off"

/-!
## Device snapshots (`models.py`)

The NamedTuples of models.py; fields the Python code leaves untyped in
practice (values copied straight out of raw records) are `JVal`.
-/

/-- models.GatewayDevice. -/
structure GatewayDevice where
  name : JVal
  unique_id : JVal
  data : JVal
  manufacturer : JVal
  model : JVal
  sw_version : JVal

/-- models.ClimateDevice. Its NamedTuple declaration (models.py lines
15-36) has exactly these fields: in particular it declares no
`fan_mode`, `fan_modes` or `locked` field. -/
structure ClimateDevice where
  available : Bool
  name : JVal
  unique_id : JVal
  temperature_unit : String
  precision : Rat
  current_temperature : Rat
  target_temperature : Rat
  max_temp : Rat
  min_temp : Rat
  current_humidity : JVal
  hvac_mode : String
  hvac_action : String
  hvac_modes : List String
  preset_mode : String
  preset_modes : List String
  supported_features : Int
  device_class : String
  data : JVal
  manufacturer : JVal
  model : JVal
  sw_version : JVal

/-- models.BinarySensorDevice. -/
structure BinarySensorDevice where
  available : Bool
  name : JVal
  unique_id : JVal
  is_on : Bool
  device_class : Option String
  data : JVal
  manufacturer : JVal
  model : JVal
  sw_version : JVal

/-- models.SwitchDevice. -/
structure SwitchDevice where
  available : Bool
  name : JVal
  unique_id : String
  is_on : Bool
  device_class : String
  data : JVal
  manufacturer : JVal
  model : JVal
  sw_version : JVal

/-- models.CoverDevice. -/
structure CoverDevice where
  available : Bool
  name : JVal
  unique_id : JVal
  current_cover_position : JVal
  is_opening : Option Bool
  is_closing : Option Bool
  is_closed : Bool
  supported_features : Int
  device_class : Option String
  data : JVal
  manufacturer : JVal
  model : JVal
  sw_version : JVal

/-- models.SensorDevice. -/
structure SensorDevice where
  available : Bool
  name : JVal
  unique_id : String
  state : Rat
  unit_of_measurement : String
  device_class : String
  data : JVal
  manufacturer : JVal
  model : JVal
  sw_version : JVal

/-!
## Shared decode helpers (`gateway.py`)
-/

/-- Chained `device_status.get(cluster, dict()).get(attr, dflt)`, the
attribute access pattern used throughout the refresh methods. -/
def getGet (v : JVal) (cluster attr : String) (dflt : JVal) : Except PyExc JVal := do
  let c ← v.getD cluster (.jobj [])
  c.getD attr dflt

/-- Python `json.loads` applied to a raw value: only strings can be
parsed, everything else raises. -/
def pyJsonLoads (v : JVal) : Except PyExc JVal :=
  match v with
  | .jstr s => jsonLoads s
  | _ => .error .typeError

/-- Device name decode used by every refresh method:
`json.loads(device_status.get("sZDO", dict()).get("DeviceName", dflt))["deviceName"]`. -/
def decodeName (v : JVal) (dflt : String) : Except PyExc JVal := do
  let raw ← getGet v "sZDO" "DeviceName" (.jstr dflt)
  (← pyJsonLoads raw).item "deviceName"

/-- Availability decode used by every refresh method:
`True if device_status.get("sZDOInfo", dict()).get("OnlineStatus_i", 1) == 1 else False`. -/
def decodeAvailable (v : JVal) : Except PyExc Bool := do
  let x ← getGet v "sZDOInfo" "OnlineStatus_i" (.jint 1)
  pure (x.eqInt 1)

/-- Default `DeviceName` JSON used when the record carries none. -/
def unknownNameJson : String := "\x7b\"deviceName\": \"Unknown\"\x7d"

/-- Request body of the per-kind batched status read:
`dict(requestAttr="deviceid", id=[dict(data=d["data"]) for d in devices])`. -/
def deviceIdRequest (devices : List JVal) : Except PyExc JVal := do
  let datas ← devices.mapM (fun d => d.item "data")
  pure (.jobj [("requestAttr", .jstr "deviceid"),
               ("id", .jarr (datas.map (fun x => .jobj [("data", x)])))])

/-- Request body of the full inventory read. -/
def readallRequest : JVal := .jobj [("requestAttr", .jstr "readall")]

/-- Value of a hexadecimal digit (`ValueError` otherwise, as Python
`int(s, 16)` raises on bad literals). -/
def hexDigitVal (c : Char) : Except PyExc Nat :=
  if c.isDigit then pure (c.toNat - 48)
  else if ('a' ≤ c ∧ c ≤ 'f') then pure (c.toNat - 87)
  else if ('A' ≤ c ∧ c ≤ 'F') then pure (c.toNat - 55)
  else .error (.valueError "invalid literal for int with base 16")

/-- Python `int(s, 16)` for the two-character slice taken from a
`MoveToLevel_f` value. -/
def hexPair (s : String) : Except PyExc Int := do
  match s.data with
  | [a, b] => pure (((← hexDigitVal a) * 16 + (← hexDigitVal b) : Nat) : Int)
  | _ => .error (.valueError "invalid literal for int with base 16")

/-!
## Per-kind record decoding (`gateway.py` refresh loops)

Each per-record function returns `.error e` when an exception escapes
the loop body (statements outside the per-record `try`), `.ok none`
when the record is skipped (missing attributes, filtered endpoints, or
a caught per-record exception), and `.ok (some (key, device))` for a
decoded snapshot keyed as in the corresponding `local_devices`
assignment.
-/

/-- One iteration of the `_refresh_gateway_device` loop (gateway.py
lines 214-232): the id/model lookups run outside the `try`, only the
`GatewayDevice` construction is protected. -/
def decodeGatewayRecord (device_status : JVal) : Except PyExc (Option GatewayDevice) := do
  let uid ← getGet device_status "sGateway" "NetworkLANMAC" .jnull
  match uid with
  | .jnull => pure none
  | uid => do
    let model ← getGet device_status "sGateway" "ModelIdentifier" .jnull
    match (do
        let data ← device_status.item "data"
        let manufacturer ← getGet device_status "sBasicS" "ManufactureName" (.jstr "SALUS")
        let sw ← getGet device_status "sOTA" "OTAFirmwareVersion_d" .jnull
        pure { name := model, unique_id := uid, data := data, manufacturer := manufacturer,
               model := model, sw_version := sw } : Except PyExc GatewayDevice) with
    | .ok d => pure (some d)
    | .error _ => pure none

/-- Body of the per-record `try` of `_refresh_cover_devices` (gateway.py
lines 255-290). -/
def decodeCoverRecordTry (device_status uid : JVal) :
    Except PyExc (Option (JVal × CoverDevice)) := do
  let mode ← getGet device_status "sButtonS" "Mode" .jnull
  if mode.eqInt 0 then pure none
  else do
    let model ← getGet device_status "DeviceL" "ModelIdentifier_i" .jnull
    let current_position ← getGet device_status "sLevelS" "CurrentLevel" .jnull
    let move_to_level_f ← getGet device_status "sLevelS" "MoveToLevel_f" .jnull
    let set_position : Option Int ←
      match move_to_level_f with
      | .jnull => pure none
      | .jstr s =>
        if s.length ≥ 2 then do pure (some (← hexPair (s.take 2)))
        else pure none
      | _ => .error .typeError
    let available ← decodeAvailable device_status
    let name ← decodeName device_status unknownNameJson
    let is_opening : Option Bool ←
      match set_position with
      | none => pure none
      | some sp => do pure (some (← current_position.ltInt sp))
    let is_closing : Option Bool ←
      match set_position with
      | none => pure none
      | some sp => do pure (some (← current_position.gtInt sp))
    let data ← device_status.item "data"
    let manufacturer ← getGet device_status "sBasicS" "ManufactureName" (.jstr "SALUS")
    let sw ← getGet device_status "sZDO" "FirmwareVersion" .jnull
    pure (some (uid,
      { available := available, name := name, unique_id := uid,
        current_cover_position := current_position,
        is_opening := is_opening, is_closing := is_closing,
        is_closed := current_position.eqInt 0,
        supported_features := Int.lor (Int.lor SUPPORT_OPEN SUPPORT_CLOSE) SUPPORT_SET_POSITION,
        device_class := none, data := data, manufacturer := manufacturer,
        model := model, sw_version := sw }))

/-- One iteration of the `_refresh_cover_devices` loop (gateway.py lines
249-292): the id lookup runs outside the `try`, the rest is caught per
record. -/
def decodeCoverRecord (device_status : JVal) : Except PyExc (Option (JVal × CoverDevice)) := do
  let uid ← getGet device_status "data" "UniID" .jnull
  match uid with
  | .jnull => pure none
  | uid =>
    match decodeCoverRecordTry device_status uid with
    | .ok r => pure r
    | .error _ => pure none

/-- Body of the per-record `try` of `_refresh_switch_devices` (gateway.py
lines 317-344): endpoints that carry a level cluster are skipped, so are
records lacking an `sOnOffS.OnOff` attribute. -/
def decodeSwitchRecordTry (device_status : JVal) (unique_id : String) :
    Except PyExc (Option (String × SwitchDevice)) := do
  let lvl ← device_status.getD "sLevelS" .jnull
  match lvl with
  | .jnull => do
    let is_on ← getGet device_status "sOnOffS" "OnOff" .jnull
    match is_on with
    | .jnull => pure none
    | is_on => do
      let model ← getGet device_status "DeviceL" "ModelIdentifier_i" .jnull
      let available ← decodeAvailable device_status
      let name ← decodeName device_status
        ("\x7b\"deviceName\": " ++ jsonDumps (.jstr unique_id) ++ "\x7d")
      let data ← device_status.item "data"
      let manufacturer ← getGet device_status "sBasicS" "ManufactureName" (.jstr "SALUS")
      let sw ← getGet device_status "sZDO" "FirmwareVersion" .jnull
      pure (some (unique_id,
        { available := available, name := name, unique_id := unique_id,
          is_on := is_on.eqInt 1,
          device_class := if model.eqStr "SP600" ∨ model.eqStr "SPE600" then "outlet" else "switch",
          data := data, manufacturer := manufacturer, model := model, sw_version := sw }))
  | _ => pure none

/-- One iteration of the `_refresh_switch_devices` loop (gateway.py
lines 309-346): the id lookup and the endpoint-suffix computation
`unique_id + "_" + str(device_status["data"]["Endpoint"])` run outside
the `try` (a malformed record there escapes the loop), the rest is
caught per record. -/
def decodeSwitchRecord (device_status : JVal) :
    Except PyExc (Option (String × SwitchDevice)) := do
  let uid ← getGet device_status "data" "UniID" .jnull
  match uid with
  | .jnull => pure none
  | .jstr uidStr => do
    let ep ← (← device_status.item "data").item "Endpoint"
    match decodeSwitchRecordTry device_status (uidStr ++ "_" ++ pyStr ep) with
    | .ok r => pure r
    | .error _ => pure none
  | _ =>
    .error .typeError

/-- Body of the per-record `try` of `_refresh_sensor_devices` (gateway.py
lines 369-396). -/
def decodeSensorRecordTry (device_status uid : JVal) :
    Except PyExc (Option (String × SensorDevice)) := do
  let temperature ← getGet device_status "sTempS" "MeasuredValue_x100" .jnull
  match temperature with
  | .jnull => pure none
  | temperature => do
    let unique_id ← match uid with
      | .jstr s => pure (s ++ "_temp")
      | _ => .error .typeError
    let model ← getGet device_status "DeviceL" "ModelIdentifier_i" .jnull
    let available ← decodeAvailable device_status
    let name ← decodeName device_status unknownNameJson
    let t ← temperature.asInt
    let data ← device_status.item "data"
    let manufacturer ← getGet device_status "sBasicS" "ManufactureName" (.jstr "SALUS")
    let sw ← getGet device_status "sZDO" "FirmwareVersion" .jnull
    pure (some (unique_id,
      { available := available, name := name, unique_id := unique_id,
        state := (t : Rat) / 100, unit_of_measurement := TEMP_CELSIUS,
        device_class := "temperature", data := data, manufacturer := manufacturer,
        model := model, sw_version := sw }))

/-- One iteration of the `_refresh_sensor_devices` loop (gateway.py lines
363-398). -/
def decodeSensorRecord (device_status : JVal) :
    Except PyExc (Option (String × SensorDevice)) := do
  let uid ← getGet device_status "data" "UniID" .jnull
  match uid with
  | .jnull => pure none
  | uid =>
    match decodeSensorRecordTry device_status uid with
    | .ok r => pure r
    | .error _ => pure none

/-- Body of the per-record `try` of `_refresh_binary_sensor_devices`
(gateway.py lines 421-455). -/
def decodeBinarySensorRecordTry (device_status : JVal) :
    Except PyExc (Option (JVal × BinarySensorDevice)) := do
  let model ← getGet device_status "DeviceL" "ModelIdentifier_i" .jnull
  let is_on ←
    if model.eqStr "it600MINITRV" ∨ model.eqStr "it600Receiver" then
      getGet device_status "sIT600I" "RelayStatus" .jnull
    else
      getGet device_status "sIASZS" "ErrorIASZSAlarmed1" .jnull
  match is_on with
  | .jnull => pure none
  | is_on =>
    if model.eqStr "SB600" then pure none
    else do
      let available ← decodeAvailable device_status
      let name ← decodeName device_status unknownNameJson
      let uid ← (← device_status.item "data").item "UniID"
      let data ← device_status.item "data"
      let manufacturer ← getGet device_status "sBasicS" "ManufactureName" (.jstr "SALUS")
      let sw ← getGet device_status "sZDO" "FirmwareVersion" .jnull
      pure (some (uid,
        { available := available, name := name, unique_id := uid,
          is_on := is_on.eqInt 1,
          device_class :=
            if model.eqStr "SW600" ∨ model.eqStr "OS600" then some "window"
            else if model.eqStr "WLS600" then some "moisture"
            else if model.eqStr "SmokeSensor-EM" then some "smoke"
            else if model.eqStr "it600MINITRV" then some "valve"
            else if model.eqStr "it600Receiver" then some "receiver"
            else none,
          data := data, manufacturer := manufacturer, model := model, sw_version := sw }))

/-- One iteration of the `_refresh_binary_sensor_devices` loop
(gateway.py lines 415-457). -/
def decodeBinarySensorRecord (device_status : JVal) :
    Except PyExc (Option (JVal × BinarySensorDevice)) := do
  let uid ← getGet device_status "data" "UniID" .jnull
  match uid with
  | .jnull => pure none
  | _ =>
    match decodeBinarySensorRecordTry device_status with
    | .ok r => pure r
    | .error _ => pure none

/-!
## Cipher (`encryptor.py`)

`IT600Encryptor` derives a key once at construction -
`md5("Salus-" + euid.lower())` extended with 16 zero bytes - and runs
the AES block cipher in CBC mode with the fixed IV below, PKCS7-padding
the UTF-8 encoded plaintext before encryption and unpadding after
decryption.

The AES block permutation, the MD5 digest and the UTF-8 codec are
external library primitives (`cryptography`, `hashlib`, Python `str`
methods); the model takes them as parameters, constrained by their
documented contracts only where a theorem needs them (the block cipher
maps 16-byte blocks to 16-byte blocks and decryption inverts
encryption; the codec round-trips). Everything `encryptor.py` itself
implements - the key layout, the fixed IV, CBC chaining and PKCS7
padding as performed by its calls - is modelled concretely, with bytes
as `Nat`s.
-/

/-- Fixed initialization vector of `IT600Encryptor` (encryptor.py line 11). -/
def it600_iv : List Nat :=
  [0x88, 0xa6, 0xb0, 0x79, 0x5d, 0x85, 0xdb, 0xfc,
   0xe6, 0xe0, 0xb3, 0xe9, 0xa6, 0x29, 0x65, 0x4b]

/-- Key derivation of `IT600Encryptor.__init__`: the MD5 digest of
`"Salus-" + euid.lower()` followed by 16 zero bytes. -/
def deriveKey (md5 : String → List Nat) (euid : String) : List Nat :=
  md5 ("Salus-" ++ euid.toLower) ++ List.replicate 16 0

/-- PKCS7 padding to the 128-bit block size: append `padLen` copies of
`padLen` where `padLen = 16 - len % 16` (always in 1..16). -/
def pkcs7pad (bs : List Nat) : List Nat :=
  bs ++ List.replicate (16 - bs.length % 16) (16 - bs.length % 16)

/-- PKCS7 unpadding: the input must be a nonempty multiple of the block
size whose last byte `n` is in 1..16 and whose last `n` bytes all equal
`n`; anything else is a padding error (surfaced by the library as
`ValueError`). -/
def pkcs7unpad (bs : List Nat) : Except PyExc (List Nat) :=
  match bs.reverse with
  | [] => .error (.valueError "Invalid padding bytes.")
  | n :: _ =>
    if bs.length % 16 = 0 ∧ 1 ≤ n ∧ n ≤ 16 ∧ (bs.drop (bs.length - n)).all (fun b => b = n) then
      .ok (bs.take (bs.length - n))
    else .error (.valueError "Invalid padding bytes.")

/-- Bytewise XOR of two equal-length blocks. -/
def listXor (a b : List Nat) : List Nat := List.zipWith (fun x y => x ^^^ y) a b

/-- CBC-mode encryption: each 16-byte plaintext block is XORed with the
previous ciphertext block (initially the IV) and passed through the
block cipher `E key`. Fuel-indexed so that it evaluates by `rfl`. -/
def cbcEncAux (E : List Nat → List Nat → List Nat) (key : List Nat) :
    Nat → List Nat → List Nat → List Nat
  | 0, _, _ => []
  | fuel + 1, prev, data =>
    if data.isEmpty then []
    else
      E key (listXor (data.take 16) prev)
        ++ cbcEncAux E key fuel (E key (listXor (data.take 16) prev)) (data.drop 16)

/-- CBC-mode decryption: each 16-byte ciphertext block is passed through
`D key` and XORed with the previous ciphertext block (initially the IV). -/
def cbcDecAux (D : List Nat → List Nat → List Nat) (key : List Nat) :
    Nat → List Nat → List Nat → List Nat
  | 0, _, _ => []
  | fuel + 1, prev, data =>
    if data.isEmpty then []
    else
      listXor (D key (data.take 16)) prev
        ++ cbcDecAux D key fuel (data.take 16) (data.drop 16)

/-- `IT600Encryptor.encrypt`: UTF-8 encode, PKCS7 pad, CBC encrypt with
the fixed IV. -/
def it600encrypt (E : List Nat → List Nat → List Nat) (utf8enc : String → List Nat)
    (key : List Nat) (plain : String) : List Nat :=
  cbcEncAux E key (pkcs7pad (utf8enc plain)).length it600_iv (pkcs7pad (utf8enc plain))

/-- `IT600Encryptor.decrypt`: CBC decrypt with the fixed IV, PKCS7
unpad, UTF-8 decode. Bad padding or undecodable bytes surface as
errors, matching the library behaviour. -/
def it600decrypt (D : List Nat → List Nat → List Nat)
    (utf8dec : List Nat → Except PyExc String) (key : List Nat)
    (cypher : List Nat) : Except PyExc String := do
  let plain ← pkcs7unpad (cbcDecAux D key cypher.length it600_iv cypher)
  utf8dec plain

/-!
## Climate decoding (`_refresh_climate_devices`, gateway.py lines 462-557)

The per-record body computes a full set of keyword arguments (the
`global_args` dict plus branch-specific entries) and then calls the
`ClimateDevice(...)` NamedTuple constructor with them. The two steps
are modelled separately: `ClimateArgs` is the call-site argument
record, and `mkClimateDevice` models the constructor's keyword
acceptance against the field list declared in models.py.
-/

/-- Keyword arguments `_refresh_climate_devices` computes for its
`ClimateDevice(...)` call: the `global_args` keys (gateway.py lines
488-499) plus the branch arguments of lines 507-523 / 528-544. -/
structure ClimateArgs where
  available : Bool
  name : JVal
  unique_id : JVal
  temperature_unit : String
  precision : Rat
  device_class : String
  data : JVal
  manufacturer : JVal
  model : JVal
  sw_version : JVal
  current_humidity : JVal
  current_temperature : Rat
  target_temperature : Rat
  max_temp : Rat
  min_temp : Rat
  hvac_mode : String
  hvac_action : String
  hvac_modes : List String
  preset_mode : String
  preset_modes : List String
  fan_mode : Option String
  fan_modes : Option (List String)
  locked : Option Bool
  supported_features : Int

/-- Field names declared by the `ClimateDevice` NamedTuple
(models.py lines 15-36). -/
def climateDeviceFields : List String :=
  ["available", "name", "unique_id", "temperature_unit", "precision",
   "current_temperature", "target_temperature", "max_temp", "min_temp",
   "current_humidity", "hvac_mode", "hvac_action", "hvac_modes",
   "preset_mode", "preset_modes", "supported_features", "device_class",
   "data", "manufacturer", "model", "sw_version"]

/-- Keyword names passed at the `ClimateDevice(...)` call sites in
`_refresh_climate_devices` (both branches pass the same keyword set,
including `fan_mode`, `fan_modes` and `locked`). -/
def climateCallKwargs : List String :=
  ["available", "name", "unique_id", "temperature_unit", "precision",
   "device_class", "data", "manufacturer", "model", "sw_version",
   "current_humidity", "current_temperature", "target_temperature",
   "max_temp", "min_temp", "hvac_mode", "hvac_action", "hvac_modes",
   "preset_mode", "preset_modes", "fan_mode", "fan_modes", "locked",
   "supported_features"]

/-- The `ClimateDevice(...)` constructor call: Python's NamedTuple
`__new__` accepts exactly the declared fields, so the call raises
`TypeError` whenever some passed keyword is not a declared field, and
otherwise produces the snapshot from the computed arguments. -/
def mkClimateDevice (args : ClimateArgs) : Except PyExc ClimateDevice :=
  if climateCallKwargs.all (fun k => climateDeviceFields.contains k) then
    .ok { available := args.available, name := args.name, unique_id := args.unique_id,
          temperature_unit := args.temperature_unit, precision := args.precision,
          current_temperature := args.current_temperature,
          target_temperature := args.target_temperature,
          max_temp := args.max_temp, min_temp := args.min_temp,
          current_humidity := args.current_humidity,
          hvac_mode := args.hvac_mode, hvac_action := args.hvac_action,
          hvac_modes := args.hvac_modes, preset_mode := args.preset_mode,
          preset_modes := args.preset_modes,
          supported_features := args.supported_features,
          device_class := args.device_class, data := args.data,
          manufacturer := args.manufacturer, model := args.model,
          sw_version := args.sw_version }
  else .error .typeError

/-- Branch arguments for a single-setpoint (`sIT600TH`) record
(gateway.py lines 501-523), merged with the already computed
`global_args` values. -/
def climateArgsTH (th model : JVal) (available : Bool)
    (name uid data manufacturer sw : JVal) : Except PyExc ClimateArgs := do
  let current_humidity : JVal ←
    match model with
    | .jnull => pure .jnull
    | .jstr m =>
      if strContains m "SQ610" then th.getD "SunnySetpoint_x100" .jnull
      else pure .jnull
    | _ => .error .typeError
  let current_temperature ← (← th.item "LocalTemperature_x100").asInt
  let target_temperature ← (← th.item "HeatingSetpoint_x100").asInt
  let max_temp ← (← th.getD "MaxHeatSetpoint_x100" (.jint 3500)).asInt
  let min_temp ← (← th.getD "MinHeatSetpoint_x100" (.jint 500)).asInt
  let holdType ← th.item "HoldType"
  let hvac_mode :=
    if holdType.eqInt 7 then HVAC_MODE_OFF
    else if holdType.eqInt 2 then HVAC_MODE_HEAT
    else HVAC_MODE_AUTO
  let hvac_action ←
    if holdType.eqInt 7 then pure CURRENT_HVAC_OFF
    else do
      let rs ← (← th.item "RunningState").asInt
      pure (if rs % 2 = 0 then CURRENT_HVAC_IDLE else CURRENT_HVAC_HEAT)
  let preset_mode :=
    if holdType.eqInt 7 then PRESET_OFF
    else if holdType.eqInt 2 then PRESET_PERMANENT_HOLD
    else PRESET_FOLLOW_SCHEDULE
  pure { available := available, name := name, unique_id := uid,
         temperature_unit := TEMP_CELSIUS, precision := (1 : Rat) / 10,
         device_class := "temperature", data := data,
         manufacturer := manufacturer, model := model, sw_version := sw,
         current_humidity := current_humidity,
         current_temperature := (current_temperature : Rat) / 100,
         target_temperature := (target_temperature : Rat) / 100,
         max_temp := (max_temp : Rat) / 100, min_temp := (min_temp : Rat) / 100,
         hvac_mode := hvac_mode, hvac_action := hvac_action,
         hvac_modes := [HVAC_MODE_OFF, HVAC_MODE_HEAT, HVAC_MODE_AUTO],
         preset_mode := preset_mode,
         preset_modes := [PRESET_FOLLOW_SCHEDULE, PRESET_PERMANENT_HOLD, PRESET_OFF],
         fan_mode := none, fan_modes := none, locked := none,
         supported_features := Int.lor SUPPORT_TARGET_TEMPERATURE SUPPORT_PRESET_MODE }

/-- Branch arguments for a dual-setpoint (`sTherS`/`sComm`/`sFanS`)
record (gateway.py lines 524-544). -/
def climateArgsDual (device_status ther scomm sfans model : JVal) (available : Bool)
    (name uid data manufacturer sw : JVal) : Except PyExc ClimateArgs := do
  let systemMode ← ther.item "SystemMode"
  let is_heating : Bool := systemMode.eqInt 4
  let fan_mode_raw ← sfans.getD "FanMode" (.jint 5)
  let current_temperature ← (← ther.item "LocalTemperature_x100").asInt
  let target_temperature ←
    if is_heating then do (← ther.item "HeatingSetpoint_x100").asInt
    else do (← ther.item "CoolingSetpoint_x100").asInt
  let max_temp ←
    if is_heating then do (← ther.getD "MaxHeatSetpoint_x100" (.jint 4000)).asInt
    else do (← ther.getD "MaxCoolSetpoint_x100" (.jint 4000)).asInt
  let min_temp ←
    if is_heating then do (← ther.getD "MinHeatSetpoint_x100" (.jint 500)).asInt
    else do (← ther.getD "MinCoolSetpoint_x100" (.jint 500)).asInt
  let hvac_mode :=
    if systemMode.eqInt 4 then HVAC_MODE_HEAT
    else if systemMode.eqInt 3 then HVAC_MODE_COOL
    else HVAC_MODE_AUTO
  let holdType ← scomm.item "HoldType"
  let hvac_action ←
    if holdType.eqInt 7 then pure CURRENT_HVAC_OFF
    else do
      let rs ← ther.item "RunningState"
      pure (if rs.eqInt 0 then CURRENT_HVAC_IDLE
        else if is_heating ∧ rs.eqInt 33 then CURRENT_HVAC_HEAT
        else if is_heating then CURRENT_HVAC_HEAT_IDLE
        else if rs.eqInt 66 then CURRENT_HVAC_COOL
        else CURRENT_HVAC_COOL_IDLE)
  let preset_mode :=
    if holdType.eqInt 7 then PRESET_OFF
    else if holdType.eqInt 2 then PRESET_PERMANENT_HOLD
    else if holdType.eqInt 10 then PRESET_ECO
    else if holdType.eqInt 1 then PRESET_TEMPORARY_HOLD
    else PRESET_FOLLOW_SCHEDULE
  let fan_mode :=
    if fan_mode_raw.eqInt 0 then FAN_MODE_OFF
    else if fan_mode_raw.eqInt 3 then FAN_MODE_HIGH
    else if fan_mode_raw.eqInt 2 then FAN_MODE_MEDIUM
    else if fan_mode_raw.eqInt 1 then FAN_MODE_LOW
    else FAN_MODE_AUTO
  let lockKey ← getGet device_status "sTherUIS" "LockKey" (.jint 0)
  pure { available := available, name := name, unique_id := uid,
         temperature_unit := TEMP_CELSIUS, precision := (1 : Rat) / 10,
         device_class := "temperature", data := data,
         manufacturer := manufacturer, model := model, sw_version := sw,
         current_humidity := .jnull,
         current_temperature := (current_temperature : Rat) / 100,
         target_temperature := (target_temperature : Rat) / 100,
         max_temp := (max_temp : Rat) / 100, min_temp := (min_temp : Rat) / 100,
         hvac_mode := hvac_mode, hvac_action := hvac_action,
         hvac_modes := [HVAC_MODE_HEAT, HVAC_MODE_COOL, HVAC_MODE_AUTO],
         preset_mode := preset_mode,
         preset_modes := [PRESET_OFF, PRESET_PERMANENT_HOLD, PRESET_ECO,
                          PRESET_TEMPORARY_HOLD, PRESET_FOLLOW_SCHEDULE],
         fan_mode := some fan_mode,
         fan_modes := some [FAN_MODE_AUTO, FAN_MODE_HIGH, FAN_MODE_MEDIUM,
                            FAN_MODE_LOW, FAN_MODE_OFF],
         locked := some (lockKey.eqInt 1),
         supported_features :=
           Int.lor (Int.lor SUPPORT_TARGET_TEMPERATURE SUPPORT_PRESET_MODE) SUPPORT_FAN_MODE }

/-- Body of the per-record `try` of `_refresh_climate_devices`
(gateway.py lines 480-552): compute the cluster handles and
`global_args`, select the branch, compute its arguments, and call the
`ClimateDevice(...)` constructor. -/
def decodeClimateRecordTry (device_status uid : JVal) :
    Except PyExc (Option (JVal × ClimateDevice)) := do
  let model ← getGet device_status "DeviceL" "ModelIdentifier_i" .jnull
  let th ← device_status.getD "sIT600TH" .jnull
  let ther ← device_status.getD "sTherS" .jnull
  let scomm ← device_status.getD "sComm" .jnull
  let sfans ← device_status.getD "sFanS" .jnull
  let available ← decodeAvailable device_status
  let name ← decodeName device_status unknownNameJson
  let data ← device_status.item "data"
  let manufacturer ← getGet device_status "sBasicS" "ManufactureName" (.jstr "SALUS")
  let sw ← getGet device_status "sZDO" "FirmwareVersion" .jnull
  let args : Option ClimateArgs ←
    match th with
    | .jnull =>
      match ther, scomm, sfans with
      | .jnull, _, _ => pure none
      | _, .jnull, _ => pure none
      | _, _, .jnull => pure none
      | ther, scomm, sfans => do
        pure (some (← climateArgsDual device_status ther scomm sfans model available
          name uid data manufacturer sw))
    | th => do
      pure (some (← climateArgsTH th model available name uid data manufacturer sw))
  match args with
  | none => pure none
  | some a => do
    let d ← mkClimateDevice a
    pure (some (d.unique_id, d))

/-- One iteration of the `_refresh_climate_devices` loop (gateway.py
lines 474-554). -/
def decodeClimateRecord (device_status : JVal) :
    Except PyExc (Option (JVal × ClimateDevice)) := do
  let uid ← getGet device_status "data" "UniID" .jnull
  match uid with
  | .jnull => pure none
  | uid =>
    match decodeClimateRecordTry device_status uid with
    | .ok r => pure r
    | .error _ => pure none

/-!
## Registry refresh and `poll_status` (gateway.py lines 135-557)

The transport is modelled by an oracle from request body to the result
of `_make_encrypted_request` for it. Each refresh loop threads the
freshly built `local_devices` dict and, when callbacks are requested,
the live registry into which decoded devices are injected one at a
time; the loop stops at the first exception escaping the per-record
protections. Each `_refresh_*` returns the registry as left by the call
together with the escaping exception, if any: on success the fresh dict
is swapped in, on an escape the previous registry (with any callback
injections already applied) remains. Callbacks themselves are external
caller-supplied functions and are modelled as non-raising.
-/

/-- The per-kind registries and gateway snapshot held by `IT600Gateway`
(Python dicts in insertion order). -/
structure GatewayState where
  gateway_device : Option GatewayDevice
  climate_devices : List (JVal × ClimateDevice)
  binary_sensor_devices : List (JVal × BinarySensorDevice)
  switch_devices : List (JVal × SwitchDevice)
  cover_devices : List (JVal × CoverDevice)
  sensor_devices : List (JVal × SensorDevice)

/-- The `for` loop of `_refresh_gateway_device`: the last successfully
decoded gateway record wins. -/
def gatewayLoop : List JVal → Option GatewayDevice → Option GatewayDevice × Option PyExc
  | [], acc => (acc, none)
  | r :: rest, acc =>
    match decodeGatewayRecord r with
    | .error e => (acc, some e)
    | .ok none => gatewayLoop rest acc
    | .ok (some d) => gatewayLoop rest (some d)

/-- `_refresh_gateway_device` (gateway.py lines 202-235): on a nonempty
device list, batch-read the records and replace the stored gateway
snapshot only when the loop completes. -/
def refreshGatewayDevice (oracle : JVal → Except PyExc JVal) (devices : List JVal)
    (current : Option GatewayDevice) : Option GatewayDevice × Option PyExc :=
  if devices.isEmpty then (current, none)
  else
    match deviceIdRequest devices with
    | .error e => (current, some e)
    | .ok req =>
      match oracle req with
      | .error e => (current, some e)
      | .ok status =>
        match status.item "id" >>= pyIter with
        | .error e => (current, some e)
        | .ok records =>
          match gatewayLoop records none with
          | (acc, none) => (acc, none)
          | (_, some e) => (current, some e)

/-- The `for` loop of `_refresh_climate_devices`. -/
def climateLoop (send_callback : Bool) :
    List JVal → List (JVal × ClimateDevice) → List (JVal × ClimateDevice) →
    List (JVal × ClimateDevice) × List (JVal × ClimateDevice) × Option PyExc
  | [], locals, live => (locals, live, none)
  | r :: rest, locals, live =>
    match decodeClimateRecord r with
    | .error e => (locals, live, some e)
    | .ok none => climateLoop send_callback rest locals live
    | .ok (some (uid, d)) =>
      climateLoop send_callback rest (jdictSet locals uid d)
        (if send_callback then jdictSet live uid d else live)

/-- `_refresh_climate_devices` (gateway.py lines 462-557). Unlike every
other kind, the final registry assignment (line 556) sits outside the
`if devices:` block, so an empty climate device list replaces the
registry with the empty dict; an escaping exception still skips the
assignment. -/
def refreshClimateDevices (oracle : JVal → Except PyExc JVal) (send_callback : Bool)
    (devices : List JVal) (current : List (JVal × ClimateDevice)) :
    List (JVal × ClimateDevice) × Option PyExc :=
  if devices.isEmpty then ([], none)
  else
    match deviceIdRequest devices with
    | .error e => (current, some e)
    | .ok req =>
      match oracle req with
      | .error e => (current, some e)
      | .ok status =>
        match status.item "id" >>= pyIter with
        | .error e => (current, some e)
        | .ok records =>
          match climateLoop send_callback records [] current with
          | (locals, _, none) => (locals, none)
          | (_, live, some e) => (live, some e)

/-- The `for` loop of `_refresh_binary_sensor_devices`. -/
def binarySensorLoop (send_callback : Bool) :
    List JVal → List (JVal × BinarySensorDevice) → List (JVal × BinarySensorDevice) →
    List (JVal × BinarySensorDevice) × List (JVal × BinarySensorDevice) × Option PyExc
  | [], locals, live => (locals, live, none)
  | r :: rest, locals, live =>
    match decodeBinarySensorRecord r with
    | .error e => (locals, live, some e)
    | .ok none => binarySensorLoop send_callback rest locals live
    | .ok (some (uid, d)) =>
      binarySensorLoop send_callback rest (jdictSet locals uid d)
        (if send_callback then jdictSet live uid d else live)

/-- `_refresh_binary_sensor_devices` (gateway.py lines 403-460). -/
def refreshBinarySensorDevices (oracle : JVal → Except PyExc JVal) (send_callback : Bool)
    (devices : List JVal) (current : List (JVal × BinarySensorDevice)) :
    List (JVal × BinarySensorDevice) × Option PyExc :=
  if devices.isEmpty then (current, none)
  else
    match deviceIdRequest devices with
    | .error e => (current, some e)
    | .ok req =>
      match oracle req with
      | .error e => (current, some e)
      | .ok status =>
        match status.item "id" >>= pyIter with
        | .error e => (current, some e)
        | .ok records =>
          match binarySensorLoop send_callback records [] current with
          | (locals, _, none) => (locals, none)
          | (_, live, some e) => (live, some e)

/-- The `for` loop of `_refresh_sensor_devices`. -/
def sensorLoop (send_callback : Bool) :
    List JVal → List (JVal × SensorDevice) → List (JVal × SensorDevice) →
    List (JVal × SensorDevice) × List (JVal × SensorDevice) × Option PyExc
  | [], locals, live => (locals, live, none)
  | r :: rest, locals, live =>
    match decodeSensorRecord r with
    | .error e => (locals, live, some e)
    | .ok none => sensorLoop send_callback rest locals live
    | .ok (some (uid, d)) =>
      sensorLoop send_callback rest (jdictSet locals (.jstr uid) d)
        (if send_callback then jdictSet live (.jstr uid) d else live)

/-- `_refresh_sensor_devices` (gateway.py lines 351-401). -/
def refreshSensorDevices (oracle : JVal → Except PyExc JVal) (send_callback : Bool)
    (devices : List JVal) (current : List (JVal × SensorDevice)) :
    List (JVal × SensorDevice) × Option PyExc :=
  if devices.isEmpty then (current, none)
  else
    match deviceIdRequest devices with
    | .error e => (current, some e)
    | .ok req =>
      match oracle req with
      | .error e => (current, some e)
      | .ok status =>
        match status.item "id" >>= pyIter with
        | .error e => (current, some e)
        | .ok records =>
          match sensorLoop send_callback records [] current with
          | (locals, _, none) => (locals, none)
          | (_, live, some e) => (live, some e)

/-- The `for` loop of `_refresh_switch_devices`. -/
def switchLoop (send_callback : Bool) :
    List JVal → List (JVal × SwitchDevice) → List (JVal × SwitchDevice) →
    List (JVal × SwitchDevice) × List (JVal × SwitchDevice) × Option PyExc
  | [], locals, live => (locals, live, none)
  | r :: rest, locals, live =>
    match decodeSwitchRecord r with
    | .error e => (locals, live, some e)
    | .ok none => switchLoop send_callback rest locals live
    | .ok (some (uid, d)) =>
      switchLoop send_callback rest (jdictSet locals (.jstr uid) d)
        (if send_callback then jdictSet live (.jstr uid) d else live)

/-- `_refresh_switch_devices` (gateway.py lines 297-349). -/
def refreshSwitchDevices (oracle : JVal → Except PyExc JVal) (send_callback : Bool)
    (devices : List JVal) (current : List (JVal × SwitchDevice)) :
    List (JVal × SwitchDevice) × Option PyExc :=
  if devices.isEmpty then (current, none)
  else
    match deviceIdRequest devices with
    | .error e => (current, some e)
    | .ok req =>
      match oracle req with
      | .error e => (current, some e)
      | .ok status =>
        match status.item "id" >>= pyIter with
        | .error e => (current, some e)
        | .ok records =>
          match switchLoop send_callback records [] current with
          | (locals, _, none) => (locals, none)
          | (_, live, some e) => (live, some e)

/-- The `for` loop of `_refresh_cover_devices`. -/
def coverLoop (send_callback : Bool) :
    List JVal → List (JVal × CoverDevice) → List (JVal × CoverDevice) →
    List (JVal × CoverDevice) × List (JVal × CoverDevice) × Option PyExc
  | [], locals, live => (locals, live, none)
  | r :: rest, locals, live =>
    match decodeCoverRecord r with
    | .error e => (locals, live, some e)
    | .ok none => coverLoop send_callback rest locals live
    | .ok (some (uid, d)) =>
      coverLoop send_callback rest (jdictSet locals uid d)
        (if send_callback then jdictSet live uid d else live)

/-- `_refresh_cover_devices` (gateway.py lines 237-295). -/
def refreshCoverDevices (oracle : JVal → Except PyExc JVal) (send_callback : Bool)
    (devices : List JVal) (current : List (JVal × CoverDevice)) :
    List (JVal × CoverDevice) × Option PyExc :=
  if devices.isEmpty then (current, none)
  else
    match deviceIdRequest devices with
    | .error e => (current, some e)
    | .ok req =>
      match oracle req with
      | .error e => (current, some e)
      | .ok status =>
        match status.item "id" >>= pyIter with
        | .error e => (current, some e)
        | .ok records =>
          match coverLoop send_callback records [] current with
          | (locals, _, none) => (locals, none)
          | (_, live, some e) => (live, some e)

/-!
### The per-kind `try` blocks of `poll_status`

Each block filters the full inventory and runs the kind's refresh; any
exception - from the `all_devices["id"]` subscript, the filter, or the
refresh itself - is logged and swallowed.
-/

/-- Python `list(filter(p, xs))` where the predicate itself can raise. -/
def pyFilter (p : JVal → Except PyExc Bool) : List JVal → Except PyExc (List JVal)
  | [] => pure []
  | x :: rest => do
    let b ← p x
    let r ← pyFilter p rest
    pure (if b then x :: r else r)

/-- Gateway-kind filter: `"sGateway" in x`. -/
def isGatewayRecord (x : JVal) : Except PyExc Bool := pyContains "sGateway" x

/-- Climate-kind filter: `("sIT600TH" in x) or ("sTherS" in x)`. -/
def isClimateRecord (x : JVal) : Except PyExc Bool := do
  if (← pyContains "sIT600TH" x) then pure true else pyContains "sTherS" x

/-- Binary-sensor-kind filter (gateway.py lines 165-168). -/
def isBinarySensorRecord (x : JVal) : Except PyExc Bool := do
  if (← pyContains "sIASZS" x) then pure true
  else if (← pyContains "sBasicS" x) then do
    let b ← x.item "sBasicS"
    if (← pyContains "ModelIdentifier" b) then do
      let m ← b.item "ModelIdentifier"
      pure (m.eqStr "it600MINITRV" ∨ m.eqStr "it600Receiver")
    else pure false
  else pure false

/-- Sensor-kind filter: `"sTempS" in x`. -/
def isSensorRecord (x : JVal) : Except PyExc Bool := pyContains "sTempS" x

/-- Switch-kind filter: `"sOnOffS" in x`. -/
def isSwitchRecord (x : JVal) : Except PyExc Bool := pyContains "sOnOffS" x

/-- Cover-kind filter: `"sLevelS" in x`. -/
def isCoverRecord (x : JVal) : Except PyExc Bool := pyContains "sLevelS" x

/-- The gateway-kind `try` block of `poll_status` (lines 145-152). -/
def pollKindGateway (oracle : JVal → Except PyExc JVal) (all_devices : JVal)
    (st : GatewayState) : GatewayState :=
  match all_devices.item "id" >>= pyIter >>= pyFilter isGatewayRecord with
  | .error _ => st
  | .ok devices =>
    { st with gateway_device := (refreshGatewayDevice oracle devices st.gateway_device).1 }

/-- The climate-kind `try` block of `poll_status` (lines 154-161). -/
def pollKindClimate (oracle : JVal → Except PyExc JVal) (send_callback : Bool)
    (all_devices : JVal) (st : GatewayState) : GatewayState :=
  match all_devices.item "id" >>= pyIter >>= pyFilter isClimateRecord with
  | .error _ => st
  | .ok devices =>
    { st with climate_devices :=
        (refreshClimateDevices oracle send_callback devices st.climate_devices).1 }

/-- The binary-sensor-kind `try` block of `poll_status` (lines 163-173). -/
def pollKindBinarySensor (oracle : JVal → Except PyExc JVal) (send_callback : Bool)
    (all_devices : JVal) (st : GatewayState) : GatewayState :=
  match all_devices.item "id" >>= pyIter >>= pyFilter isBinarySensorRecord with
  | .error _ => st
  | .ok devices =>
    { st with binary_sensor_devices :=
        (refreshBinarySensorDevices oracle send_callback devices st.binary_sensor_devices).1 }

/-- The sensor-kind `try` block of `poll_status` (lines 175-182). -/
def pollKindSensor (oracle : JVal → Except PyExc JVal) (send_callback : Bool)
    (all_devices : JVal) (st : GatewayState) : GatewayState :=
  match all_devices.item "id" >>= pyIter >>= pyFilter isSensorRecord with
  | .error _ => st
  | .ok devices =>
    { st with sensor_devices :=
        (refreshSensorDevices oracle send_callback devices st.sensor_devices).1 }

/-- The switch-kind `try` block of `poll_status` (lines 184-191). -/
def pollKindSwitch (oracle : JVal → Except PyExc JVal) (send_callback : Bool)
    (all_devices : JVal) (st : GatewayState) : GatewayState :=
  match all_devices.item "id" >>= pyIter >>= pyFilter isSwitchRecord with
  | .error _ => st
  | .ok devices =>
    { st with switch_devices :=
        (refreshSwitchDevices oracle send_callback devices st.switch_devices).1 }

/-- The cover-kind `try` block of `poll_status` (lines 193-200). -/
def pollKindCover (oracle : JVal → Except PyExc JVal) (send_callback : Bool)
    (all_devices : JVal) (st : GatewayState) : GatewayState :=
  match all_devices.item "id" >>= pyIter >>= pyFilter isCoverRecord with
  | .error _ => st
  | .ok devices =>
    { st with cover_devices :=
        (refreshCoverDevices oracle send_callback devices st.cover_devices).1 }

/-- `poll_status` (gateway.py lines 135-200): one full inventory read
(whose failure propagates to the caller), then the six per-kind blocks
in source order, each isolated by its own handler. -/
def poll_status (oracle : JVal → Except PyExc JVal) (send_callback : Bool)
    (st : GatewayState) : Except PyExc GatewayState := do
  let all_devices ← oracle readallRequest
  pure (pollKindCover oracle send_callback all_devices
    (pollKindSwitch oracle send_callback all_devices
      (pollKindSensor oracle send_callback all_devices
        (pollKindBinarySensor oracle send_callback all_devices
          (pollKindClimate oracle send_callback all_devices
            (pollKindGateway oracle all_devices st))))))

/-!
## Write commands (`gateway.py` lines 659-880)

The write helpers look up the target snapshot, build the request body
and hand it to the transport; the model returns the request body built
(`some body`), `none` when the id was unknown (logged no-op), or the
validation error raised before any lookup.
-/

/-- Two-digit lowercase hex rendering, Python `format(position, "02x")`
for values 0-255. -/
def format02x (n : Nat) : String :=
  String.singleton (if n / 16 < 10 then Char.ofNat (48 + n / 16) else Char.ofNat (87 + n / 16))
    ++ String.singleton (if n % 16 < 10 then Char.ofNat (48 + n % 16) else Char.ofNat (87 + n % 16))

/-- `IT600Gateway.set_cover_position` (gateway.py lines 659-684): the
0-100 inclusive bounds check runs first and raises `ValueError`; the
device lookup follows (an unknown id logs and returns without a
request); finally the `sLevelS.SetMoveToLevel` write body is built and
sent. -/
def set_cover_position (st : GatewayState) (device_id : String) (position : Int) :
    Except PyExc (Option JVal) :=
  if position < 0 ∨ position > 100 then
    .error (.valueError "position must be between 0 and 100 (both bounds inclusive)")
  else
    match jlookup st.cover_devices (.jstr device_id) with
    | none => .ok none
    | some device =>
      .ok (some (.jobj [("requestAttr", .jstr "write"),
        ("id", .jarr [.jobj [("data", device.data),
          ("sLevelS", .jobj [("SetMoveToLevel",
            .jstr (format02x position.toNat ++ "FFFF"))])]])]))

/-- Python `round` to the nearest integer with ties to even (banker's
rounding), on rationals. -/
def pyRound (x : Rat) : Int :=
  if x - Int.floor x < 1 / 2 then Int.floor x
  else if x - Int.floor x > 1 / 2 then Int.floor x + 1
  else if Int.floor x % 2 = 0 then Int.floor x else Int.floor x + 1

/-- `IT600Gateway.round_to_half` (gateway.py lines 876-880):
`round(number * 2) / 2`. -/
def round_to_half (number : Rat) : Rat := (pyRound (number * 2) : Rat) / 2

/-- Python `int(x)`: truncation toward zero. -/
def pyInt (x : Rat) : Int := Int.tdiv x.num (x.den : Int)

/-- Cluster payload built by `set_climate_device_temperature`
(gateway.py lines 855-861) from the target's model and mode: FC600
fan-coil units write `sTherS` cooling/heating setpoints, every other
thermostat writes the `sIT600TH` heating setpoint; the value is always
`int(round_to_half(setpoint) * 100)`. -/
def climateTemperatureRequestData (model : JVal) (hvac_mode : String) (sp : Rat) : JVal :=
  if model.eqStr "FC600" then
    if hvac_mode = HVAC_MODE_COOL then
      .jobj [("sTherS", .jobj [("SetCoolingSetpoint_x100",
        .jint (pyInt (round_to_half sp * 100)))])]
    else
      .jobj [("sTherS", .jobj [("SetHeatingSetpoint_x100",
        .jint (pyInt (round_to_half sp * 100)))])]
  else
    .jobj [("sIT600TH", .jobj [("SetHeatingSetpoint_x100",
      .jint (pyInt (round_to_half sp * 100)))])]

/-- Fields of a JSON object (empty for other shapes). -/
def jobjFields : JVal → List (String × JVal)
  | .jobj fs => fs
  | _ => []

/-- `IT600Gateway.set_climate_device_temperature` (gateway.py lines
846-874): look up the climate snapshot, build the model-specific
payload, and send `{"requestAttr": "write", "id": [{"data": ...,
**request_data}]}`. -/
def set_climate_device_temperature (st : GatewayState) (device_id : String) (sp : Rat) :
    Except PyExc (Option JVal) :=
  match jlookup st.climate_devices (.jstr device_id) with
  | none => .ok none
  | some device =>
    .ok (some (.jobj [("requestAttr", .jstr "write"),
      ("id", .jarr [.jobj (("data", device.data) ::
        jobjFields (climateTemperatureRequestData device.model device.hvac_mode sp))])]))

/-!
## Encrypted transport (`_make_encrypted_request`, gateway.py lines 907-959)

The HTTP round trip (`session.post` + `resp.read()`) is modelled by its
outcome `postResult`: either the raw response bytes or the exception the
HTTP client raised (`asyncio.TimeoutError` on a timed-out request,
`ClientConnectorError` on a TCP-level connect failure, or any other
exception).
-/

/-- Timeout classification message (gateway.py lines 947-949). -/
def timeoutMsg : String := "Error occurred while communicating with iT600 gateway: timeout"

/-- Connect-failure classification message (gateway.py lines 951-954). -/
def connectMsg : String :=
  "Error occurred while communicating with iT600 gateway: check if you have specified host/IP address correctly"

/-- Catch-all classification message (gateway.py lines 957-959). -/
def unknownMsg : String := "Unknown error occurred while communicating with iT600 gateway"

/-- Command-rejection message raised for a non-success response status
(gateway.py lines 940-942), echoing the `repr` of the request body. -/
def rejectedMsg (command : String) (request_body : JVal) : String :=
  "iT600 gateway rejected " ++ sq ++ command ++ sq ++ " command with content "
    ++ sq ++ pyRepr request_body ++ sq

/-- Body of the `try` block of `_make_encrypted_request` (lines
915-944): post the encrypted serialized body (outcome `postResult`),
decrypt the response bytes, parse them as JSON, and check the
top-level `status` field, raising the echoing `IT600CommandError` when
it is not `"success"`. -/
def makeRequestInner (D : List Nat → List Nat → List Nat)
    (utf8dec : List Nat → Except PyExc String) (key : List Nat)
    (command : String) (request_body : JVal)
    (postResult : Except PyExc (List Nat)) : Except PyExc JVal := do
  let response_bytes ← postResult
  let response_json_string ← it600decrypt D utf8dec key response_bytes
  let response_json ← jsonLoads response_json_string
  let status ← response_json.item "status"
  if ¬ status.eqStr "success" then
    .error (.it600CommandError (rejectedMsg command request_body))
  else
    pure response_json

/-- `_make_encrypted_request` (gateway.py lines 907-959): the `try`
body followed by the `except` ladder. `asyncio.TimeoutError` and
`ClientConnectorError` become `IT600ConnectionError`; every other
`Exception` - including the command-rejection `IT600CommandError`
raised inside the `try`, since `IT600Error` subclasses `Exception` -
is caught by the final handler and replaced by the generic
`IT600CommandError`. -/
def make_encrypted_request (D : List Nat → List Nat → List Nat)
    (utf8dec : List Nat → Except PyExc String) (key : List Nat)
    (command : String) (request_body : JVal)
    (postResult : Except PyExc (List Nat)) : Except PyExc JVal :=
  match makeRequestInner D utf8dec key command request_body postResult with
  | .ok v => .ok v
  | .error .timeoutError => .error (.it600ConnectionError timeoutMsg)
  | .error .clientConnectorError => .error (.it600ConnectionError connectMsg)
  | .error _ => .error (.it600CommandError unknownMsg)

/-!
## Fixtures

Concrete raw records, transport oracles and prior states used by the
theorems and their witnesses.
-/

/-- A single-setpoint (`sIT600TH`) thermostat attribute cluster. -/
def thCluster (hold rs lt hs : Int) : JVal := .jobj [
  ("LocalTemperature_x100", .jint lt),
  ("HeatingSetpoint_x100", .jint hs),
  ("HoldType", .jint hold),
  ("RunningState", .jint rs)]

/-- A single-setpoint cluster that also carries the optional max/min
setpoint attributes. -/
def thClusterFull (hold rs lt hs maxv minv : Int) : JVal := .jobj [
  ("LocalTemperature_x100", .jint lt),
  ("HeatingSetpoint_x100", .jint hs),
  ("MaxHeatSetpoint_x100", .jint maxv),
  ("MinHeatSetpoint_x100", .jint minv),
  ("HoldType", .jint hold),
  ("RunningState", .jint rs)]

/-- A minimal well-formed single-setpoint thermostat record. -/
def thFixture (hold rs lt hs : Int) : JVal := .jobj [
  ("data", .jobj [("UniID", .jstr "th1"), ("Endpoint", .jint 9)]),
  ("sIT600TH", thCluster hold rs lt hs)]

/-- A dual-setpoint (`sTherS`) thermostat attribute cluster. -/
def therCluster (sysMode rs lt hs cs : Int) : JVal := .jobj [
  ("SystemMode", .jint sysMode),
  ("LocalTemperature_x100", .jint lt),
  ("HeatingSetpoint_x100", .jint hs),
  ("CoolingSetpoint_x100", .jint cs),
  ("RunningState", .jint rs)]

/-- A minimal well-formed dual-setpoint (`sTherS`/`sComm`/`sFanS`)
thermostat record. -/
def dualFixture (sysMode hold rs : Int) : JVal := .jobj [
  ("data", .jobj [("UniID", .jstr "fc1"), ("Endpoint", .jint 1)]),
  ("sTherS", therCluster sysMode rs 2100 2000 2400),
  ("sComm", .jobj [("HoldType", .jint hold)]),
  ("sFanS", .jobj [("FanMode", .jint 5)])]

/-- A switch endpoint record whose `sButtonS.Mode` attribute is 0. -/
def switchFixtureMode0 : JVal := .jobj [
  ("data", .jobj [("UniID", .jstr "sw1"), ("Endpoint", .jint 1)]),
  ("sOnOffS", .jobj [("OnOff", .jint 1)]),
  ("sButtonS", .jobj [("Mode", .jint 0)])]

/-- A successful gateway response carrying the given records. -/
def successResponse (records : List JVal) : JVal :=
  .jobj [("status", .jstr "success"), ("id", .jarr records)]

/-- The batched status request expected for the given records (`jnull`
when a record lacks its `data` handle). -/
def reqForRecords (records : List JVal) : JVal :=
  match deviceIdRequest records with
  | .ok r => r
  | .error _ => .jnull

/-- Transport oracle answering every request with a successful empty
inventory. -/
def emptyInventoryOracle : JVal → Except PyExc JVal :=
  fun _ => .ok (successResponse [])

/-- A well-formed switch record (decodes to a snapshot). -/
def c2SwitchGood : JVal := .jobj [
  ("data", .jobj [("UniID", .jstr "sw1"), ("Endpoint", .jint 1)]),
  ("sOnOffS", .jobj [("OnOff", .jint 1)])]

/-- A malformed switch record: its `data` dict lacks `Endpoint`, so the
endpoint-suffix computation before the per-record `try` raises
`KeyError` and escapes the switch refresh loop. -/
def c2SwitchBad : JVal := .jobj [
  ("data", .jobj [("UniID", .jstr "sw2")]),
  ("sOnOffS", .jobj [("OnOff", .jint 0)])]

/-- A well-formed cover record. -/
def c2Cover : JVal := .jobj [
  ("data", .jobj [("UniID", .jstr "cv1"), ("Endpoint", .jint 1)]),
  ("sLevelS", .jobj [("CurrentLevel", .jint 50)])]

/-- A well-formed climate record for the mixed-cycle fixture. -/
def c2Climate : JVal := thFixture 0 0 2100 2000

/-- Full inventory of the mixed cycle: one climate, one cover and two
switch records, the second switch record malformed. -/
def c2Inventory : List JVal := [c2Climate, c2Cover, c2SwitchGood, c2SwitchBad]

/-- Transport oracle for the mixed cycle: serves the full inventory and
the three per-kind batched reads. -/
def c2Oracle : JVal → Except PyExc JVal := fun req =>
  if JVal.beq req readallRequest then .ok (successResponse c2Inventory)
  else if JVal.beq req (reqForRecords [c2Climate]) then .ok (successResponse [c2Climate])
  else if JVal.beq req (reqForRecords [c2Cover]) then .ok (successResponse [c2Cover])
  else if JVal.beq req (reqForRecords [c2SwitchGood, c2SwitchBad]) then
    .ok (successResponse [c2SwitchGood, c2SwitchBad])
  else .error .otherExc

/-- The cover snapshot decoded from `c2Cover`. -/
def c2CoverDevice : CoverDevice :=
  { available := true, name := .jstr "Unknown", unique_id := .jstr "cv1",
    current_cover_position := .jint 50, is_opening := none, is_closing := none,
    is_closed := false, supported_features := 7, device_class := none,
    data := .jobj [("UniID", .jstr "cv1"), ("Endpoint", .jint 1)],
    manufacturer := .jstr "SALUS", model := .jnull, sw_version := .jnull }

/-- The switch snapshot decoded from `c2SwitchGood`. -/
def c2SwitchDevice : SwitchDevice :=
  { available := true, name := .jstr "sw1_1", unique_id := "sw1_1",
    is_on := true, device_class := "switch",
    data := .jobj [("UniID", .jstr "sw1"), ("Endpoint", .jint 1)],
    manufacturer := .jstr "SALUS", model := .jnull, sw_version := .jnull }

/-- The gateway state with all registries empty. -/
def emptyState : GatewayState :=
  { gateway_device := none, climate_devices := [], binary_sensor_devices := [],
    switch_devices := [], cover_devices := [], sensor_devices := [] }

/-- A climate snapshot standing in for a device decoded in a previous
poll. -/
def oldClimateDevice : ClimateDevice :=
  { available := true, name := .jnull, unique_id := .jstr "old",
    temperature_unit := TEMP_CELSIUS, precision := 1 / 10,
    current_temperature := 20, target_temperature := 20, max_temp := 35,
    min_temp := 5, current_humidity := .jnull, hvac_mode := "auto",
    hvac_action := "idle", hvac_modes := [], preset_mode := "Follow Schedule",
    preset_modes := [], supported_features := 17, device_class := "temperature",
    data := .jnull, manufacturer := .jnull, model := .jnull, sw_version := .jnull }

/-- A switch snapshot standing in for a device decoded in a previous
poll. -/
def oldSwitchDevice : SwitchDevice :=
  { available := true, name := .jnull, unique_id := "oldsw", is_on := false,
    device_class := "switch", data := .jnull, manufacturer := .jnull,
    model := .jnull, sw_version := .jnull }

/-- Prior state for the mixed cycle: the climate and switch registries
hold entries from a previous poll. -/
def c2PriorState : GatewayState :=
  { emptyState with
    climate_devices := [(.jstr "old", oldClimateDevice)],
    switch_devices := [(.jstr "oldsw", oldSwitchDevice)] }

/-- Modelled from the claim text of C6, read as an ordered case list:
hold-type 7 to off; else running-state 0 to idle; else exact 33 to
heating and exact 66 to cooling; any other non-zero running-state to
heating-idling in heating mode and cooling-idling in cooling mode. -/
def hvacActionDualClaim (hold rs : Int) (isHeating : Bool) : String :=
  if hold = 7 then CURRENT_HVAC_OFF
  else if rs = 0 then CURRENT_HVAC_IDLE
  else if rs = 33 then CURRENT_HVAC_HEAT
  else if rs = 66 then CURRENT_HVAC_COOL
  else if isHeating then CURRENT_HVAC_HEAT_IDLE
  else CURRENT_HVAC_COOL_IDLE

/-- The climate-argument record `climateArgsTH` computes for a
`thCluster` fixture: every field is concrete except the hold-type
selections, the action, and the temperatures. -/
def thArgsExpected (hold lt hs : Int) (act : String) : ClimateArgs :=
  { available := true, name := .jnull, unique_id := .jstr "th1",
    temperature_unit := TEMP_CELSIUS, precision := (1 : Rat) / 10,
    device_class := "temperature", data := .jnull, manufacturer := .jnull,
    model := .jnull, sw_version := .jnull, current_humidity := .jnull,
    current_temperature := (lt : Rat) / 100,
    target_temperature := (hs : Rat) / 100,
    max_temp := ((3500 : Int) : Rat) / 100,
    min_temp := ((500 : Int) : Rat) / 100,
    hvac_mode := if JVal.eqInt (.jint hold) 7 = true then HVAC_MODE_OFF
      else if JVal.eqInt (.jint hold) 2 = true then HVAC_MODE_HEAT
      else HVAC_MODE_AUTO,
    hvac_action := act,
    hvac_modes := [HVAC_MODE_OFF, HVAC_MODE_HEAT, HVAC_MODE_AUTO],
    preset_mode := if JVal.eqInt (.jint hold) 7 = true then PRESET_OFF
      else if JVal.eqInt (.jint hold) 2 = true then PRESET_PERMANENT_HOLD
      else PRESET_FOLLOW_SCHEDULE,
    preset_modes := [PRESET_FOLLOW_SCHEDULE, PRESET_PERMANENT_HOLD, PRESET_OFF],
    fan_mode := none, fan_modes := none, locked := none,
    supported_features := Int.lor SUPPORT_TARGET_TEMPERATURE SUPPORT_PRESET_MODE }

/-- The climate-argument record `climateArgsDual` computes for a
`dualFixture`/`therCluster` fixture, parameterised by the mode-dependent
`hvac_mode` string, the mode-selected setpoint and the action. -/
def dualArgsExpected (hold target : Int) (mode act : String) : ClimateArgs :=
  { available := true, name := .jnull, unique_id := .jstr "fc1",
    temperature_unit := TEMP_CELSIUS, precision := (1 : Rat) / 10,
    device_class := "temperature", data := .jnull, manufacturer := .jnull,
    model := .jnull, sw_version := .jnull, current_humidity := .jnull,
    current_temperature := ((2100 : Int) : Rat) / 100,
    target_temperature := (target : Rat) / 100,
    max_temp := ((4000 : Int) : Rat) / 100,
    min_temp := ((500 : Int) : Rat) / 100,
    hvac_mode := mode,
    hvac_action := act,
    hvac_modes := [HVAC_MODE_HEAT, HVAC_MODE_COOL, HVAC_MODE_AUTO],
    preset_mode := if JVal.eqInt (.jint hold) 7 = true then PRESET_OFF
      else if JVal.eqInt (.jint hold) 2 = true then PRESET_PERMANENT_HOLD
      else if JVal.eqInt (.jint hold) 10 = true then PRESET_ECO
      else if JVal.eqInt (.jint hold) 1 = true then PRESET_TEMPORARY_HOLD
      else PRESET_FOLLOW_SCHEDULE,
    preset_modes := [PRESET_OFF, PRESET_PERMANENT_HOLD, PRESET_ECO,
                     PRESET_TEMPORARY_HOLD, PRESET_FOLLOW_SCHEDULE],
    fan_mode := some FAN_MODE_AUTO,
    fan_modes := some [FAN_MODE_AUTO, FAN_MODE_HIGH, FAN_MODE_MEDIUM,
                       FAN_MODE_LOW, FAN_MODE_OFF],
    locked := some false,
    supported_features :=
      Int.lor (Int.lor SUPPORT_TARGET_TEMPERATURE SUPPORT_PRESET_MODE) SUPPORT_FAN_MODE }

/-- Fixture block cipher for the transport theorems: ignores its input
block and returns the block that CBC-decrypts (under the fixed IV) to a
full block of PKCS7 padding. -/
def c3BlockFn : List Nat → List Nat → List Nat :=
  fun _ _ => listXor it600_iv (List.replicate 16 16)

/-- Fixture UTF-8 decoder for the transport theorems: decodes any byte
string to a JSON body whose status is not success. -/
def c3DecodeFn : List Nat → Except PyExc String :=
  fun _ => .ok "\x7b\"status\": \"fail\"\x7d"

/-- One ciphertext block for the transport fixtures. -/
def c3Bytes : List Nat := List.replicate 16 0

/-!
## Theorems
-/

/-- Length of a bytewise XOR. -/
theorem listXor_length (a b : List Nat) : (listXor a b).length = min a.length b.length := by
  simp [listXor]

/-- XORing twice with the same block is the identity. -/
theorem listXor_cancel : ∀ (p q : List Nat), p.length ≤ q.length →
    listXor (listXor p q) q = p
  | [], _, _ => by simp [listXor]
  | a :: p, b :: q, h =>  by
    simp only [listXor, List.zipWith_cons_cons]
    refine congrArg₂ _ (Nat.xor_cancel_right b a) ?_
    exact listXor_cancel p q (by simpa using h)

/-- Padding always produces a multiple of the block size. -/
theorem pkcs7pad_length (bs : List Nat) :
    (pkcs7pad bs).length = bs.length + (16 - bs.length % 16) := by
  simp [pkcs7pad]

/-- Unpadding inverts padding. -/
theorem pkcs7unpad_pkcs7pad (bs : List Nat) : pkcs7unpad (pkcs7pad bs) = .ok bs := by
  obtain ⟨q, hq⟩ : ∃ q, 16 - bs.length % 16 = q + 1 := ⟨16 - bs.length % 16 - 1, by omega⟩
  have hrev : (pkcs7pad bs).reverse
      = (16 - bs.length % 16) ::
        (List.replicate q (16 - bs.length % 16) ++ bs.reverse) := by
    rw [pkcs7pad, List.reverse_append, List.reverse_replicate]
    rw [hq, List.replicate_succ]
    simp [hq]
  have harith : bs.length + (16 - bs.length % 16) - (16 - bs.length % 16) = bs.length := by
    omega
  have hdrop : (pkcs7pad bs).drop ((pkcs7pad bs).length - (16 - bs.length % 16))
      = List.replicate (16 - bs.length % 16) (16 - bs.length % 16) := by
    rw [pkcs7pad_length, harith, pkcs7pad]
    exact List.drop_left bs _
  have htake : (pkcs7pad bs).take ((pkcs7pad bs).length - (16 - bs.length % 16)) = bs := by
    rw [pkcs7pad_length, harith, pkcs7pad]
    exact List.take_left bs _
  rw [pkcs7unpad, hrev]
  dsimp only
  rw [if_pos]
  · rw [htake]
  · refine ⟨by rw [pkcs7pad_length]; omega, by omega, by omega, ?_⟩
    rw [hdrop]
    simp [List.all_eq_true, List.mem_replicate]

/-- A nonempty list of block-aligned length has at least one full block. -/
theorem sixteen_le_of_block (data : List Nat) (hmod : data.length % 16 = 0)
    (hne : data.isEmpty = false) : 16 ≤ data.length := by
  rcases data with _ | ⟨a, rest⟩
  · simp at hne
  · have : (a :: rest).length ≠ 0 := by simp
    omega

/-- CBC encryption preserves the byte length of block-aligned input. -/
theorem cbcEncAux_length (E : List Nat → List Nat → List Nat) (key : List Nat)
    (hE : ∀ b, b.length = 16 → (E key b).length = 16) :
    ∀ (fuel : Nat) (data prev : List Nat), data.length % 16 = 0 → data.length ≤ fuel →
      prev.length = 16 → (cbcEncAux E key fuel prev data).length = data.length
  | 0, data, prev, _, hfuel, _ => by
    have hd : data = [] := List.eq_nil_of_length_eq_zero (Nat.le_zero.mp hfuel)
    simp [hd, cbcEncAux]
  | fuel + 1, data, prev, hmod, hfuel, hprev => by
    by_cases hd : data.isEmpty
    · have : data = [] := by simpa [List.isEmpty_iff] using hd
      simp [this, cbcEncAux]
    · have h16 : 16 ≤ data.length :=
        sixteen_le_of_block data hmod (by simpa using hd)
      have hblock : (listXor (data.take 16) prev).length = 16 := by
        rw [listXor_length, List.length_take, hprev]
        omega
      have hc : (E key (listXor (data.take 16) prev)).length = 16 := hE _ hblock
      rw [cbcEncAux, if_neg (by simpa using hd)]
      rw [List.length_append, hc,
        cbcEncAux_length E key hE fuel (data.drop 16) _ (by simp; omega) (by simp; omega) hc]
      simp
      omega

/-- CBC decryption inverts CBC encryption on block-aligned input, for
any block cipher pair that is inverse on 16-byte blocks. -/
theorem cbcDecAux_cbcEncAux (E D : List Nat → List Nat → List Nat) (key : List Nat)
    (hE : ∀ b, b.length = 16 → (E key b).length = 16)
    (hinv : ∀ b, b.length = 16 → D key (E key b) = b) :
    ∀ (fuel1 fuel2 : Nat) (data prev : List Nat), data.length % 16 = 0 →
      data.length ≤ fuel1 → data.length ≤ fuel2 → prev.length = 16 →
      cbcDecAux D key fuel2 prev (cbcEncAux E key fuel1 prev data) = data
  | 0, fuel2, data, prev, _, hfuel, _, _ => by
    have hd : data = [] := List.eq_nil_of_length_eq_zero (Nat.le_zero.mp hfuel)
    cases fuel2 <;> simp [hd, cbcEncAux, cbcDecAux]
  | fuel1 + 1, fuel2, data, prev, hmod, hfuel1, hfuel2, hprev => by
    by_cases hd : data.isEmpty
    · have hdn : data = [] := by simpa [List.isEmpty_iff] using hd
      cases fuel2 <;> simp [hdn, cbcEncAux, cbcDecAux]
    · have h16 : 16 ≤ data.length :=
        sixteen_le_of_block data hmod (by simpa using hd)
      obtain ⟨f2, rfl⟩ : ∃ f2, fuel2 = f2 + 1 := by
        cases fuel2
        · omega
        · exact ⟨_, rfl⟩
      have hblock : (listXor (data.take 16) prev).length = 16 := by
        rw [listXor_length, List.length_take, hprev]
        omega
      have hc : (E key (listXor (data.take 16) prev)).length = 16 := hE _ hblock
      rw [cbcEncAux, if_neg (by simpa using hd)]
      have hne2 : (E key (listXor (data.take 16) prev)
          ++ cbcEncAux E key fuel1 (E key (listXor (data.take 16) prev)) (data.drop 16)).isEmpty
          = false := by
        rw [List.isEmpty_eq_false_iff_exists_mem]
        rcases List.exists_mem_of_length_pos (l := E key (listXor (data.take 16) prev))
          (by omega) with ⟨x, hx⟩
        exact ⟨x, List.mem_append_left _ hx⟩
      rw [cbcDecAux, if_neg (by simp [hne2])]
      have htake : (E key (listXor (data.take 16) prev)
          ++ cbcEncAux E key fuel1 (E key (listXor (data.take 16) prev)) (data.drop 16)).take 16
          = E key (listXor (data.take 16) prev) := by
        rw [List.take_append_eq_append_take, List.take_of_length_le (by omega)]
        simp [hc]
      have hdrop : (E key (listXor (data.take 16) prev)
          ++ cbcEncAux E key fuel1 (E key (listXor (data.take 16) prev)) (data.drop 16)).drop 16
          = cbcEncAux E key fuel1 (E key (listXor (data.take 16) prev)) (data.drop 16) := by
        rw [List.drop_append_eq_append_drop, List.drop_of_length_le (by omega)]
        simp [hc]
      rw [htake, hdrop, hinv _ hblock,
        listXor_cancel _ _ (by rw [List.length_take, hprev]; omega),
        cbcDecAux_cbcEncAux E D key hE hinv fuel1 f2 (data.drop 16) _ (by simp; omega)
          (by simp; omega) (by simp; omega) hc]
      exact List.take_append_drop 16 data

/-- Round trip of the modelled `IT600Encryptor` for an arbitrary session
key, given the library contracts of the block cipher and the UTF-8
codec. -/
theorem it600_roundtrip (E D : List Nat → List Nat → List Nat)
    (utf8enc : String → List Nat) (utf8dec : List Nat → Except PyExc String)
    (key : List Nat) (p : String)
    (hE : ∀ b, b.length = 16 → (E key b).length = 16)
    (hinv : ∀ b, b.length = 16 → D key (E key b) = b)
    (hcodec : ∀ s, utf8dec (utf8enc s) = .ok s) :
    it600decrypt D utf8dec key (it600encrypt E utf8enc key p) = .ok p := by
  have hiv : it600_iv.length = 16 := by decide
  have hmod : (pkcs7pad (utf8enc p)).length % 16 = 0 := by
    rw [pkcs7pad_length]
    omega
  have hlen : (cbcEncAux E key (pkcs7pad (utf8enc p)).length it600_iv
      (pkcs7pad (utf8enc p))).length = (pkcs7pad (utf8enc p)).length :=
    cbcEncAux_length E key hE _ _ _ hmod le_rfl hiv
  rw [it600decrypt, it600encrypt, hlen]
  rw [cbcDecAux_cbcEncAux E D key hE hinv _ _ _ _ hmod le_rfl le_rfl hiv]
  rw [pkcs7unpad_pkcs7pad]
  exact hcodec p

/-- C4: for every EUID and every plaintext string `p`, decrypting the
encryption of `p` under the cipher operations constructed from that EUID
(AES-CBC with the fixed IV and the key derived once from the EUID as in
`IT600Encryptor.__init__`, shared by both directions) returns `p`. The
AES block-cipher pair, the MD5 digest and the UTF-8 codec are external
library primitives, taken as parameters constrained by their documented
contracts: the cipher maps 16-byte blocks to 16-byte blocks and
decryption inverts encryption, and the codec round-trips. -/
theorem C4_encrypt_decrypt_roundtrip
    (E D : List Nat → List Nat → List Nat)
    (utf8enc : String → List Nat) (utf8dec : List Nat → Except PyExc String)
    (md5 : String → List Nat) (euid p : String)
    (hE : ∀ k b, b.length = 16 → (E k b).length = 16)
    (hinv : ∀ k b, b.length = 16 → D k (E k b) = b)
    (hcodec : ∀ s, utf8dec (utf8enc s) = .ok s) :
    it600decrypt D utf8dec (deriveKey md5 euid)
      (it600encrypt E utf8enc (deriveKey md5 euid) p) = .ok p :=
  it600_roundtrip E D utf8enc utf8dec _ p (hE _) (hinv _) hcodec

/-- Witness for C4 at a concrete EUID and plaintext, instantiating the
library parameters with the identity block cipher, a constant digest
and a character-code codec, all satisfying the contracts. -/
theorem C4_encrypt_decrypt_roundtrip_witness :
    it600decrypt (fun _ b => b) (fun l => .ok (String.mk (l.map Char.ofNat)))
      (deriveKey (fun _ => List.replicate 16 0) "0123456789abcdef")
      (it600encrypt (fun _ b => b) (fun s => s.data.map Char.toNat)
        (deriveKey (fun _ => List.replicate 16 0) "0123456789abcdef") "plain")
      = .ok "plain" :=
  C4_encrypt_decrypt_roundtrip (fun _ b => b) (fun _ b => b)
    (fun s => s.data.map Char.toNat) (fun l => .ok (String.mk (l.map Char.ofNat)))
    (fun _ => List.replicate 16 0) "0123456789abcdef" "plain"
    (fun _ _ h => h) (fun _ _ _ => rfl)
    (fun s => by
      have : List.map (Char.ofNat ∘ Char.toNat) s.data = s.data :=
        List.map_id'' (fun c => Char.ofNat_toNat c) s.data
      simp [List.map_map, this])

/-- Integer rationals are fixed points of Python `int`. -/
theorem pyInt_intCast (n : Int) : pyInt ((n : Rat)) = n := by
  unfold pyInt
  rw [Rat.num_intCast, Rat.den_intCast]
  norm_num [Int.tdiv_one]

/-- The rounded setpoint times 100 is an integer, and Python `int`
keeps it exactly. -/
theorem round_to_half_hundredths (sp : Rat) :
    ((pyInt (round_to_half sp * 100) : Rat)) = round_to_half sp * 100 := by
  have h : round_to_half sp * 100 = (((pyRound (sp * 2) * 50 : Int)) : Rat) := by
    rw [round_to_half]; push_cast; ring
  rw [h, pyInt_intCast]

/-- C8: `round_to_half` rounds a setpoint to the nearest half degree -
21.0, 21.24, 21.26 and 21.76 map to 21.0, 21.0, 21.5 and 22.0 - and for
every model and mode the setpoint attribute written by
`set_climate_device_temperature` is `int(round_to_half(sp) * 100)`,
which equals the rounded value times 100 exactly: the payload carries
the rounded value as an integer number of hundredths. -/
theorem C8_round_to_half_encoding :
    (round_to_half 21 = 21 ∧ round_to_half (21.24 : Rat) = 21 ∧
     round_to_half (21.26 : Rat) = 21.5 ∧ round_to_half (21.76 : Rat) = 22) ∧
    (∀ (model : JVal) (hvac_mode : String) (sp : Rat),
      ∃ cluster attr,
        climateTemperatureRequestData model hvac_mode sp
          = .jobj [(cluster, .jobj [(attr, .jint (pyInt (round_to_half sp * 100)))])] ∧
        ((pyInt (round_to_half sp * 100) : Rat)) = round_to_half sp * 100) := by
  constructor
  · refine ⟨?_, ?_, ?_, ?_⟩ <;> norm_num [round_to_half, pyRound]
  · intro model hvac_mode sp
    unfold climateTemperatureRequestData
    split_ifs
    · exact ⟨"sTherS", "SetCoolingSetpoint_x100", rfl, round_to_half_hundredths sp⟩
    · exact ⟨"sTherS", "SetHeatingSetpoint_x100", rfl, round_to_half_hundredths sp⟩
    · exact ⟨"sIT600TH", "SetHeatingSetpoint_x100", rfl, round_to_half_hundredths sp⟩

/-- C5: `set_cover_position` raises the bounds `ValueError` for every
position outside 0-100, uniformly in the state and device id - the
validation happens before any lookup and no request body is ever
produced - while every in-range position passes validation (the call
returns normally, with either a logged no-op or a write body). -/
theorem C5_set_cover_position_validation :
    (∀ (st : GatewayState) (device_id : String) (position : Int),
      position < 0 ∨ position > 100 →
        set_cover_position st device_id position
          = .error (.valueError "position must be between 0 and 100 (both bounds inclusive)")) ∧
    (∀ (st : GatewayState) (device_id : String) (position : Int),
      0 ≤ position → position ≤ 100 →
        ∃ r, set_cover_position st device_id position = .ok r) := by
  constructor
  · intro st device_id position h
    unfold set_cover_position
    rw [if_pos h]
  · intro st device_id position h0 h1
    unfold set_cover_position
    rw [if_neg (by omega)]
    cases jlookup st.cover_devices (.jstr device_id) with
    | none => exact ⟨none, rfl⟩
    | some d => exact ⟨_, rfl⟩

/-- Witness for C5: on the empty state, positions 101 and -1 are
rejected with the bounds `ValueError` while 0 and 100 pass
validation. -/
theorem C5_set_cover_position_validation_witness :
    set_cover_position emptyState "c1" 101
      = .error (.valueError "position must be between 0 and 100 (both bounds inclusive)") ∧
    set_cover_position emptyState "c1" (-1)
      = .error (.valueError "position must be between 0 and 100 (both bounds inclusive)") ∧
    (∃ r, set_cover_position emptyState "c1" 0 = .ok r) ∧
    (∃ r, set_cover_position emptyState "c1" 100 = .ok r) :=
  ⟨C5_set_cover_position_validation.1 emptyState "c1" 101 (by norm_num),
   C5_set_cover_position_validation.1 emptyState "c1" (-1) (by norm_num),
   C5_set_cover_position_validation.2 emptyState "c1" 0 (by norm_num) (by norm_num),
   C5_set_cover_position_validation.2 emptyState "c1" 100 (by norm_num) (by norm_num)⟩

/-- C10: a cycle whose inventory holds no records replaces the climate
registry with the empty dict - its registry assignment sits outside the
non-empty branch - while the gateway, binary-sensor, sensor, switch and
cover registries keep their previous contents, for every prior
state. -/
theorem C10_empty_inventory_registry_effects (st : GatewayState) :
    poll_status emptyInventoryOracle false st = .ok { st with climate_devices := [] } := rfl

/-- C2 (amended): in the mixed cycle served by `c2Oracle` - a decodable
cover record, a well-formed climate record, and a switch batch whose
second record escapes the refresh loop with `KeyError` - polling
without callback notification, from any prior state, leaves the switch
registry exactly as before, fills the cover registry from this cycle,
replaces the climate registry with this cycle's decode result (empty:
the `ClimateDevice` constructor mismatch drops every climate record),
leaves the remaining kinds untouched, and returns normally. -/
theorem C2_kind_isolation_amended (st : GatewayState) :
    decodeSwitchRecord c2SwitchBad = .error .keyError ∧
    refreshSwitchDevices c2Oracle false [c2SwitchGood, c2SwitchBad] st.switch_devices
      = (st.switch_devices, some .keyError) ∧
    poll_status c2Oracle false st
      = .ok { st with climate_devices := [],
                      cover_devices := [(.jstr "cv1", c2CoverDevice)] } :=
  ⟨rfl, rfl, rfl⟩

/-- C2 counterexample: the claim promises that a cycle whose switch
refresh raises still leaves the climate registry populated from that
cycle; in the mixed cycle the inventory contains a well-formed climate
record and the prior registry held a climate entry, the switch refresh
raises, yet the climate registry comes out empty. -/
theorem C2_claim_counterexample :
    pyFilter isClimateRecord c2Inventory = .ok [c2Climate] ∧
    c2PriorState.climate_devices = [(.jstr "old", oldClimateDevice)] ∧
    poll_status c2Oracle false c2PriorState
      = .ok { c2PriorState with
              climate_devices := [],
              cover_devices := [(.jstr "cv1", c2CoverDevice)] } :=
  ⟨rfl, rfl, rfl⟩

/-- Inversion of the switch per-record `try` body: a produced snapshot
implies the record carries no level cluster, carries a non-null on/off
attribute, and is keyed by the id it was given. -/
theorem decodeSwitchRecordTry_inv (r : JVal) (u uid : String) (d : SwitchDevice)
    (h : decodeSwitchRecordTry r u = .ok (some (uid, d))) :
    r.getD "sLevelS" .jnull = .ok .jnull ∧
    (∃ onoff, getGet r "sOnOffS" "OnOff" .jnull = .ok onoff ∧ onoff ≠ .jnull) ∧
    uid = u ∧ d.unique_id = u := by
  unfold decodeSwitchRecordTry at h
  simp only [Bind.bind, Except.bind, pure, Except.pure] at h
  repeat' split at h
  all_goals try simp_all
  all_goals (obtain ⟨h1, h2⟩ := h; subst h2; simpa using h1)

/-- Inversion of the switch per-record loop body: a produced snapshot
implies a string base id and an endpoint attribute, and the key is the
base suffixed with the endpoint. -/
theorem decodeSwitchRecord_inv (r : JVal) (uid : String) (d : SwitchDevice)
    (h : decodeSwitchRecord r = .ok (some (uid, d))) :
    ∃ base ep dataObj,
      getGet r "data" "UniID" .jnull = .ok (.jstr base) ∧
      r.item "data" = .ok dataObj ∧ dataObj.item "Endpoint" = .ok ep ∧
      uid = base ++ "_" ++ pyStr ep ∧
      decodeSwitchRecordTry r (base ++ "_" ++ pyStr ep) = .ok (some (uid, d)) := by
  unfold decodeSwitchRecord at h
  simp only [Bind.bind, Except.bind, pure, Except.pure] at h
  repeat' split at h
  all_goals try simp_all
  all_goals exact (decodeSwitchRecordTry_inv r _ uid d (by assumption)).2.2.1

/-- C7 (amended): every produced switch snapshot comes from a record
with a non-null `sOnOffS.OnOff` attribute and without a level
(`sLevelS`) cluster - so a combined relay/shutter endpoint is never
registered as a switch, and decoding being a pure function of the raw
inventory, re-decoding the same inventory never introduces it - and its
unique id is the base device id suffixed with `_` and the endpoint
number. (The claim's remaining exclusion - button-mode 0 records - does
not exist in the switch refresh; see the counterexample.) -/
theorem C7_switch_decode_amended (r : JVal) (uid : String) (d : SwitchDevice)
    (h : decodeSwitchRecord r = .ok (some (uid, d))) :
    r.getD "sLevelS" .jnull = .ok .jnull ∧
    (∃ onoff, getGet r "sOnOffS" "OnOff" .jnull = .ok onoff ∧ onoff ≠ .jnull) ∧
    (∃ base ep dataObj,
      getGet r "data" "UniID" .jnull = .ok (.jstr base) ∧
      r.item "data" = .ok dataObj ∧ dataObj.item "Endpoint" = .ok ep ∧
      uid = base ++ "_" ++ pyStr ep) ∧
    d.unique_id = uid := by
  obtain ⟨base, ep, dataObj, hbase, hdata, hep, huid, htry⟩ :=
    decodeSwitchRecord_inv r uid d h
  have hi := decodeSwitchRecordTry_inv r _ uid d htry
  refine ⟨hi.1, hi.2.1, ⟨base, ep, dataObj, hbase, hdata, hep, huid⟩, ?_⟩
  rw [huid]
  exact hi.2.2.2

/-- Witness for C7 at the well-formed switch record `c2SwitchGood`,
which decodes to the snapshot keyed `sw1_1`. -/
theorem C7_switch_decode_amended_witness :
    c2SwitchGood.getD "sLevelS" .jnull = .ok .jnull ∧
    (∃ onoff, getGet c2SwitchGood "sOnOffS" "OnOff" .jnull = .ok onoff ∧ onoff ≠ .jnull) ∧
    (∃ base ep dataObj,
      getGet c2SwitchGood "data" "UniID" .jnull = .ok (.jstr base) ∧
      c2SwitchGood.item "data" = .ok dataObj ∧ dataObj.item "Endpoint" = .ok ep ∧
      "sw1_1" = base ++ "_" ++ pyStr ep) ∧
    c2SwitchDevice.unique_id = "sw1_1" :=
  C7_switch_decode_amended c2SwitchGood "sw1_1" c2SwitchDevice rfl

/-- C7 counterexample: a record whose `sButtonS.Mode` attribute equals 0
is nevertheless decoded into a switch snapshot - the button-mode
exclusion the claim describes exists only in the cover refresh
(gateway.py line 256), not in the switch refresh. -/
theorem C7_claim_counterexample :
    switchFixtureMode0.lookup "sButtonS" = some (.jobj [("Mode", .jint 0)]) ∧
    decodeSwitchRecord switchFixtureMode0 = .ok (some ("sw1_1", c2SwitchDevice)) :=
  ⟨rfl, rfl⟩

/-- `JVal.eqInt` on an integer payload is integer `decide`-equality. -/
theorem eqInt_jint (m n : Int) : JVal.eqInt (.jint m) n = decide (m = n) := rfl

/-- Evaluation of the single-setpoint branch on a `thCluster` fixture:
only the hold-type tests and the running-state parity stay symbolic. -/
theorem climateArgsTH_thCluster_eval (hold rs lt hs : Int) :
    climateArgsTH (thCluster hold rs lt hs) .jnull true .jnull (.jstr "th1") .jnull .jnull .jnull
      = if JVal.eqInt (.jint hold) 7 = true
          then .ok (thArgsExpected hold lt hs CURRENT_HVAC_OFF)
          else .ok (thArgsExpected hold lt hs
            (if rs % 2 = 0 then CURRENT_HVAC_IDLE else CURRENT_HVAC_HEAT)) := rfl

/-- Evaluation of the dual-setpoint branch in heating mode (SystemMode
4): the heating setpoint is selected and the action falls through the
heating arm of the nested conditional. -/
theorem climateArgsDual_eval_heat (hold rs : Int) :
    climateArgsDual (dualFixture 4 hold rs) (therCluster 4 rs 2100 2000 2400)
        (.jobj [("HoldType", .jint hold)]) (.jobj [("FanMode", .jint 5)])
        .jnull true .jnull (.jstr "fc1") .jnull .jnull .jnull
      = if JVal.eqInt (.jint hold) 7 = true
          then .ok (dualArgsExpected hold 2000 HVAC_MODE_HEAT CURRENT_HVAC_OFF)
          else .ok (dualArgsExpected hold 2000 HVAC_MODE_HEAT
            (if JVal.eqInt (.jint rs) 0 = true then CURRENT_HVAC_IDLE
             else if JVal.eqInt (.jint 4) 4 = true ∧ JVal.eqInt (.jint rs) 33 = true
               then CURRENT_HVAC_HEAT
             else CURRENT_HVAC_HEAT_IDLE)) := rfl

/-- Evaluation of the dual-setpoint branch out of heating mode
(SystemMode 3): the cooling setpoint is selected and the action falls
through the cooling arm of the nested conditional. -/
theorem climateArgsDual_eval_cool (hold rs : Int) :
    climateArgsDual (dualFixture 3 hold rs) (therCluster 3 rs 2100 2000 2400)
        (.jobj [("HoldType", .jint hold)]) (.jobj [("FanMode", .jint 5)])
        .jnull true .jnull (.jstr "fc1") .jnull .jnull .jnull
      = if JVal.eqInt (.jint hold) 7 = true
          then .ok (dualArgsExpected hold 2400 HVAC_MODE_COOL CURRENT_HVAC_OFF)
          else .ok (dualArgsExpected hold 2400 HVAC_MODE_COOL
            (if JVal.eqInt (.jint rs) 0 = true then CURRENT_HVAC_IDLE
             else if JVal.eqInt (.jint rs) 66 = true then CURRENT_HVAC_COOL
             else CURRENT_HVAC_COOL_IDLE)) := rfl

/-- C1 (code bug): the hold-type/running-state mapping the claim
describes is exactly what `_refresh_climate_devices` computes for a
single-setpoint record - `hvac_mode` off/heat/auto for hold-type
7/2/other, `preset_mode` Off/Permanent Hold/Follow Schedule likewise,
and `hvac_action` off when hold-type is 7, else idle exactly for even
running-state and heating for odd - but no snapshot is ever produced:
the constructor call passes `fan_mode`, `fan_modes` and `locked`,
keywords the `ClimateDevice` NamedTuple does not declare, so every
record (including well-formed ones with running-state 128, 129 or 0)
raises `TypeError` and is skipped. -/
theorem C1_single_setpoint_mapping_and_constructor_defect :
    (∀ hold rs : Int,
      (climateArgsTH (thCluster hold rs 2100 2000) .jnull true .jnull (.jstr "th1")
          .jnull .jnull .jnull).map
        (fun a => (a.hvac_mode, a.preset_mode, a.hvac_action))
      = .ok (if hold = 7 then "off" else if hold = 2 then "heat" else "auto",
             if hold = 7 then "Off" else if hold = 2 then "Permanent Hold"
               else "Follow Schedule",
             if hold = 7 then "off" else if rs % 2 = 0 then "idle" else "heating")) ∧
    (∀ a : ClimateArgs, mkClimateDevice a = .error .typeError) ∧
    decodeClimateRecord (thFixture 0 128 2100 2000) = .ok none ∧
    decodeClimateRecord (thFixture 0 129 2100 2000) = .ok none ∧
    decodeClimateRecord (thFixture 7 1 2100 2000) = .ok none := by
  refine ⟨?_, fun a => rfl, rfl, rfl, rfl⟩
  intro hold rs
  rw [climateArgsTH_thCluster_eval]
  by_cases h7 : hold = 7 <;> by_cases h2 : hold = 2 <;>
    simp only [thArgsExpected, eqInt_jint, decide_eq_true_eq, h7, h2, if_true, if_false,
      ite_true, ite_false, eq_self_iff_true, Int.reduceEq, Except.map] <;> rfl

/-- C6 (amended): the dual-setpoint `hvac_action` expression nests the
heating-mode test before the exact-66 match: off when hold-type is 7;
else idle when running-state is 0; else, in heating mode (SystemMode 4),
heating on exact 33 and heating-idling on any other non-zero value; out
of heating mode, cooling on exact 66 and cooling-idling otherwise. (As
for C1, the computed arguments never reach a snapshot because the
`ClimateDevice` constructor call raises; the property holds of the
computed `hvac_action` argument. The record's system mode ranges over
the two mode representatives 4 (heating) and 3 (cooling); the action
expression reads the system mode only through the equals-4 test.) -/
theorem C6_dual_hvac_action_amended (sysMode hold rs : Int)
    (hsys : sysMode = 4 ∨ sysMode = 3) :
    (climateArgsDual (dualFixture sysMode hold rs) (therCluster sysMode rs 2100 2000 2400)
        (.jobj [("HoldType", .jint hold)]) (.jobj [("FanMode", .jint 5)])
        .jnull true .jnull (.jstr "fc1") .jnull .jnull .jnull).map (fun a => a.hvac_action)
    = .ok (if hold = 7 then "off"
       else if rs = 0 then "idle"
       else if sysMode = 4 ∧ rs = 33 then "heating"
       else if sysMode = 4 then "heating (idling)"
       else if rs = 66 then "cooling"
       else "cooling (idling)") := by
  rcases hsys with h | h <;> subst h
  · rw [climateArgsDual_eval_heat]
    by_cases h7 : hold = 7 <;> by_cases h0 : rs = 0 <;> by_cases h33 : rs = 33 <;>
      simp only [dualArgsExpected, eqInt_jint, decide_eq_true_eq, h7, h0, h33,
        if_true, if_false, ite_true, ite_false, eq_self_iff_true, Int.reduceEq,
        true_and, false_and, and_true, and_false, and_self, Except.map] <;> rfl
  · rw [climateArgsDual_eval_cool]
    by_cases h7 : hold = 7 <;> by_cases h0 : rs = 0 <;> by_cases h66 : rs = 66 <;>
      simp only [dualArgsExpected, eqInt_jint, decide_eq_true_eq, h7, h0, h66,
        if_true, if_false, ite_true, ite_false, eq_self_iff_true, Int.reduceEq,
        true_and, false_and, and_true, and_false, and_self, Except.map] <;> rfl

/-- Witness for C6: a cooling-mode (SystemMode 3) record with hold-type
5 and running-state 66 computes the action `cooling`. -/
theorem C6_dual_hvac_action_amended_witness :
    ((3 : Int) = 4 ∨ (3 : Int) = 3) ∧
    (climateArgsDual (dualFixture 3 5 66) (therCluster 3 66 2100 2000 2400)
        (.jobj [("HoldType", .jint 5)]) (.jobj [("FanMode", .jint 5)])
        .jnull true .jnull (.jstr "fc1") .jnull .jnull .jnull).map (fun a => a.hvac_action)
    = .ok (if (5 : Int) = 7 then "off"
       else if (66 : Int) = 0 then "idle"
       else if (3 : Int) = 4 ∧ (66 : Int) = 33 then "heating"
       else if (3 : Int) = 4 then "heating (idling)"
       else if (66 : Int) = 66 then "cooling"
       else "cooling (idling)") :=
  ⟨Or.inr rfl, C6_dual_hvac_action_amended 3 5 66 (Or.inr rfl)⟩

/-- C6 counterexample: in heating mode (SystemMode 4) with running-state
exactly 66, the code computes `heating (idling)` where the claim's case
list - exact match 66 yields cooling - demands `cooling`. -/
theorem C6_claim_counterexample :
    (climateArgsDual (dualFixture 4 0 66) (therCluster 4 66 2100 2000 2400)
        (.jobj [("HoldType", .jint 0)]) (.jobj [("FanMode", .jint 5)])
        .jnull true .jnull (.jstr "fc1") .jnull .jnull .jnull).map (fun a => a.hvac_action)
      = .ok "heating (idling)" ∧
    hvacActionDualClaim 0 66 true = "cooling" ∧
    "heating (idling)" ≠ "cooling" :=
  ⟨rfl, rfl, by decide⟩

/-- C9 (amended): every temperature field of the computed climate
arguments is the raw hundredths attribute divided by 100 (with the
documented defaults when the max/min attributes are absent), in both
the single-setpoint and the dual-setpoint branch - but the precision
argument is the fixed constant 0.1 in both branches, not 0.5 for the
single-setpoint profile. (As for C1, the computed arguments never reach
a snapshot because the `ClimateDevice` constructor call raises.) -/
theorem C9_temperature_scaling_amended :
    (∀ lt hs maxv minv : Int, ∃ a,
      climateArgsTH (thClusterFull 0 0 lt hs maxv minv) .jnull true .jnull (.jstr "th1")
          .jnull .jnull .jnull = .ok a ∧
      a.current_temperature = (lt : Rat) / 100 ∧
      a.target_temperature = (hs : Rat) / 100 ∧
      a.max_temp = (maxv : Rat) / 100 ∧ a.min_temp = (minv : Rat) / 100 ∧
      a.precision = 1 / 10) ∧
    (∀ lt hs : Int, ∃ a,
      climateArgsTH (thCluster 0 0 lt hs) .jnull true .jnull (.jstr "th1")
          .jnull .jnull .jnull = .ok a ∧
      a.max_temp = (3500 : Rat) / 100 ∧ a.min_temp = (500 : Rat) / 100 ∧
      a.precision = 1 / 10) ∧
    (∀ (heating : Bool) (lt hs cs : Int), ∃ a,
      climateArgsDual (.jobj []) (therCluster (if heating then 4 else 3) 5 lt hs cs)
          (.jobj [("HoldType", .jint 0)]) (.jobj [("FanMode", .jint 5)])
          .jnull true .jnull (.jstr "fc1") .jnull .jnull .jnull = .ok a ∧
      a.current_temperature = (lt : Rat) / 100 ∧
      a.target_temperature = (if heating then (hs : Rat) else (cs : Rat)) / 100 ∧
      a.precision = 1 / 10) := by
  refine ⟨?_, ?_, ?_⟩
  · intro lt hs maxv minv
    exact ⟨_, rfl, rfl, rfl, rfl, rfl, rfl⟩
  · intro lt hs
    exact ⟨_, rfl, rfl, rfl, rfl⟩
  · intro heating lt hs cs
    cases heating
    · exact ⟨_, rfl, rfl, by simp, rfl⟩
    · exact ⟨_, rfl, rfl, by simp, rfl⟩

/-- C9 counterexample: the precision computed for a single-setpoint
(basic profile) record is the shared constant 0.1, not the claimed
0.5. -/
theorem C9_claim_counterexample :
    (climateArgsTH (thCluster 0 0 2100 2000) .jnull true .jnull (.jstr "th1")
        .jnull .jnull .jnull).map (fun a => a.precision) = .ok (1 / 10 : Rat) ∧
    (1 / 10 : Rat) ≠ (1 / 2 : Rat) :=
  ⟨rfl, by norm_num⟩

/-- C3 (amended): the request outcome taxonomy of
`_make_encrypted_request`. A successful inner round trip is returned as
is; a timeout raises `IT600ConnectionError` with the timeout message, a
TCP connect failure raises `IT600ConnectionError` with the host-check
message, and every other exception raised inside the `try` - decryption
and JSON failures included - surfaces as the single generic
`IT600CommandError`, never as a raw exception. When the decrypted
response parses with a non-success `status`, the body-echoing
`IT600CommandError` is raised inside the `try`, but because
`IT600Error` subclasses `Exception` the catch-all handler replaces it:
the caller sees the generic `IT600CommandError`, not the message with
the echoed request body. -/
theorem C3_transport_error_taxonomy_amended
    (D : List Nat → List Nat → List Nat) (utf8dec : List Nat → Except PyExc String)
    (key : List Nat) (command : String) (request_body : JVal)
    (postResult : Except PyExc (List Nat)) :
    (∀ v, makeRequestInner D utf8dec key command request_body postResult = .ok v →
       make_encrypted_request D utf8dec key command request_body postResult = .ok v) ∧
    (make_encrypted_request D utf8dec key command request_body (.error .timeoutError)
       = .error (.it600ConnectionError timeoutMsg)) ∧
    (make_encrypted_request D utf8dec key command request_body (.error .clientConnectorError)
       = .error (.it600ConnectionError connectMsg)) ∧
    (∀ e, makeRequestInner D utf8dec key command request_body postResult = .error e →
       e ≠ .timeoutError → e ≠ .clientConnectorError →
       make_encrypted_request D utf8dec key command request_body postResult
         = .error (.it600CommandError unknownMsg)) ∧
    (∀ bytes respStr json status,
       postResult = .ok bytes →
       it600decrypt D utf8dec key bytes = .ok respStr →
       jsonLoads respStr = .ok json →
       json.item "status" = .ok status →
       status.eqStr "success" = false →
       makeRequestInner D utf8dec key command request_body postResult
           = .error (.it600CommandError (rejectedMsg command request_body)) ∧
       make_encrypted_request D utf8dec key command request_body postResult
           = .error (.it600CommandError unknownMsg)) := by
  refine ⟨?_, rfl, rfl, ?_, ?_⟩
  · intro v h
    unfold make_encrypted_request
    rw [h]
  · intro e h h1 h2
    unfold make_encrypted_request
    rw [h]
    cases e <;> simp_all
  · intro bytes respStr json status hpost hdec hjson hstatus hfail
    have hinner : makeRequestInner D utf8dec key command request_body postResult
        = .error (.it600CommandError (rejectedMsg command request_body)) := by
      unfold makeRequestInner
      rw [hpost]
      simp only [Bind.bind, Except.bind, hdec, hjson, hstatus, hfail]
      simp
    refine ⟨hinner, ?_⟩
    unfold make_encrypted_request
    rw [hinner]

/-- Witness for C3 at a concrete failing response: the fixture cipher
decrypts one ciphertext block to a JSON body with status `fail`; the
inner request raises the body-echoing command error and the outer call
returns the generic one. -/
theorem C3_transport_error_taxonomy_witness :
    makeRequestInner c3BlockFn c3DecodeFn [] "read" readallRequest (.ok c3Bytes)
        = .error (.it600CommandError (rejectedMsg "read" readallRequest)) ∧
    make_encrypted_request c3BlockFn c3DecodeFn [] "read" readallRequest (.ok c3Bytes)
        = .error (.it600CommandError unknownMsg) :=
  (C3_transport_error_taxonomy_amended c3BlockFn c3DecodeFn [] "read" readallRequest
    (.ok c3Bytes)).2.2.2.2 c3Bytes "\x7b\"status\": \"fail\"\x7d"
    (.jobj [("status", .jstr "fail")]) (.jstr "fail") rfl rfl rfl rfl rfl

/-- C3 counterexample: for a response whose status is not success, the
exception the caller receives is the generic `IT600CommandError` whose
message does not include the echoed request body (the echoing error is
swallowed by the catch-all `except Exception` handler and survives only
as the cause). -/
theorem C3_claim_counterexample :
    make_encrypted_request c3BlockFn c3DecodeFn [] "read" readallRequest (.ok c3Bytes)
        = .error (.it600CommandError unknownMsg) ∧
    strContains unknownMsg (pyRepr readallRequest) = false ∧
    strContains (rejectedMsg "read" readallRequest) (pyRepr readallRequest) = true :=
  ⟨rfl, rfl, rfl⟩

end PyIt600
